import Mathlib

/-!
# Verification of the SafetyCulture resilient API access layer

Shallow embedding, in Lean 4, of the core of the `safetyculture_agent`
repository: the HMAC request signer, the input validator, the token-bucket
rate limiter with exponential backoff, the three-state circuit breaker, and
the orchestrating API client request path.  Python machine integers are
modelled as `Nat`/`Int` (with explicit `% 2^32` where the SHA-256 word
arithmetic wraps), Python floats and wall-clock readings as `Rat`, and
fallible code as `Except`/`Option`.  Ambient effects (clock readings, the
network, the token environment) are passed as explicit arguments.
-/

set_option maxRecDepth 40000

namespace SCAgent

/-! ## SHA-256 and HMAC-SHA256

The repository signs requests with `hmac.new(key, msg, hashlib.sha256)` from
the Python standard library.  The primitives below are a byte-level
implementation of FIPS 180-4 SHA-256 and RFC 2104 HMAC over `List Nat`
(each entry a byte), kernel-executable so that concrete signatures can be
computed inside proofs. -/

/-- Truncate to a 32-bit word, as Python's fixed-width hash arithmetic does. -/
def w32 (n : Nat) : Nat := n % 4294967296

/-- Rotate a 32-bit word right by `n` bits. -/
def rotr (n x : Nat) : Nat := (x >>> n) ||| ((x % (2 ^ n)) <<< (32 - n))

def shaCh (e f g : Nat) : Nat := (e &&& f) ^^^ ((e ^^^ 4294967295) &&& g)

def shaMaj (a b c : Nat) : Nat := (a &&& b) ^^^ (a &&& c) ^^^ (b &&& c)

def bigSigma0 (a : Nat) : Nat := rotr 2 a ^^^ rotr 13 a ^^^ rotr 22 a

def bigSigma1 (e : Nat) : Nat := rotr 6 e ^^^ rotr 11 e ^^^ rotr 25 e

def smallSigma0 (x : Nat) : Nat := rotr 7 x ^^^ rotr 18 x ^^^ (x >>> 3)

def smallSigma1 (x : Nat) : Nat := rotr 17 x ^^^ rotr 19 x ^^^ (x >>> 10)

/-- The 64 SHA-256 round constants (FIPS 180-4 §4.2.2). -/
def shaK : List Nat :=
  [1116352408, 1899447441, 3049323471, 3921009573, 961987163,
   1508970993, 2453635748, 2870763221, 3624381080, 310598401,
   607225278, 1426881987, 1925078388, 2162078206, 2614888103,
   3248222580, 3835390401, 4022224774, 264347078, 604807628,
   770255983, 1249150122, 1555081692, 1996064986, 2554220882,
   2821834349, 2952996808, 3210313671, 3336571891, 3584528711,
   113926993, 338241895, 666307205, 773529912, 1294757372,
   1396182291, 1695183700, 1986661051, 2177026350, 2456956037,
   2730485921, 2820302411, 3259730800, 3345764771, 3516065817,
   3600352804, 4094571909, 275423344, 430227734, 506948616,
   659060556, 883997877, 958139571, 1322822218, 1537002063,
   1747873779, 1955562222, 2024104815, 2227730452, 2361852424,
   2428436474, 2756734187, 3204031479, 3329325298]

/-- Working state of the SHA-256 compression function: eight 32-bit words. -/
structure Sha8 where
  a : Nat
  b : Nat
  c : Nat
  d : Nat
  e : Nat
  f : Nat
  g : Nat
  h : Nat
deriving DecidableEq

/-- SHA-256 initial hash value (FIPS 180-4 §5.3.3). -/
def shaH0 : Sha8 :=
  ⟨1779033703, 3144134277, 1013904242, 2773480762,
   1359893119, 2600822924, 528734635, 1541459225⟩

/-- One SHA-256 round; `kw` is the round constant already added to the
message-schedule word (both mod 2^32). -/
def shaRound (s : Sha8) (kw : Nat) : Sha8 :=
  let t1 := w32 (s.h + bigSigma1 s.e + shaCh s.e s.f s.g + kw)
  let t2 := w32 (bigSigma0 s.a + shaMaj s.a s.b s.c)
  ⟨w32 (t1 + t2), s.a, s.b, s.c, w32 (s.d + t1), s.e, s.f, s.g⟩

/-- Extend a message schedule by one word. -/
def schedStep (ws : List Nat) : List Nat :=
  let n := ws.length
  ws ++ [w32 (smallSigma1 (ws.getD (n - 2) 0) + ws.getD (n - 7) 0 +
              smallSigma0 (ws.getD (n - 15) 0) + ws.getD (n - 16) 0)]

/-- The first 16 schedule words of a 64-byte block, big-endian. -/
def blockWords (block : List Nat) : List Nat :=
  (List.range 16).map fun i =>
    block.getD (4 * i) 0 * 16777216 + block.getD (4 * i + 1) 0 * 65536 +
    block.getD (4 * i + 2) 0 * 256 + block.getD (4 * i + 3) 0

/-- SHA-256 compression of a single 64-byte block into the running hash. -/
def shaCompress (s : Sha8) (block : List Nat) : Sha8 :=
  let ws := schedStep^[48] (blockWords block)
  let kws := List.zipWith (fun k w => w32 (k + w)) shaK ws
  let t := kws.foldl shaRound s
  ⟨w32 (s.a + t.a), w32 (s.b + t.b), w32 (s.c + t.c), w32 (s.d + t.d),
   w32 (s.e + t.e), w32 (s.f + t.f), w32 (s.g + t.g), w32 (s.h + t.h)⟩

/-- Big-endian bytes of an 8-byte (64-bit) length field. -/
def be64 (n : Nat) : List Nat :=
  (List.range 8).map fun i => (n >>> (8 * (7 - i))) % 256

/-- SHA-256 padding: append `0x80`, zeros to 56 mod 64, then the bit length. -/
def shaPad (msg : List Nat) : List Nat :=
  let L := msg.length
  let k := (120 - ((L + 1) % 64)) % 64
  msg ++ [128] ++ List.replicate k 0 ++ be64 (8 * L)

/-- Split a byte list into 64-byte blocks, with structural fuel so the
kernel can evaluate it (each step consumes at least one byte). -/
def toBlocksFuel : Nat → List Nat → List (List Nat)
  | 0, _ => []
  | _ + 1, [] => []
  | fuel + 1, x :: xs => ((x :: xs).take 64) :: toBlocksFuel fuel ((x :: xs).drop 64)

/-- Split a byte list into 64-byte blocks. -/
def toBlocks (l : List Nat) : List (List Nat) := toBlocksFuel l.length l

/-- Big-endian bytes of one 32-bit word. -/
def wordBytes (n : Nat) : List Nat :=
  [n / 16777216 % 256, n / 65536 % 256, n / 256 % 256, n % 256]

/-- SHA-256 of a byte list, as 32 bytes. -/
def sha256 (msg : List Nat) : List Nat :=
  let s := (toBlocks (shaPad msg)).foldl shaCompress shaH0
  wordBytes s.a ++ wordBytes s.b ++ wordBytes s.c ++ wordBytes s.d ++
  wordBytes s.e ++ wordBytes s.f ++ wordBytes s.g ++ wordBytes s.h

/-- HMAC-SHA256 (RFC 2104) of a message under a key, as 32 bytes. -/
def hmacSha256 (key msg : List Nat) : List Nat :=
  let k1 := if 64 < key.length then sha256 key else key
  let k0 := k1 ++ List.replicate (64 - k1.length) 0
  let ipad := k0.map fun b => b ^^^ 54
  let opad := k0.map fun b => b ^^^ 92
  sha256 (opad ++ sha256 (ipad ++ msg))

/-- Lower-case hex digit. -/
def hexChar (n : Nat) : Char :=
  if n < 10 then Char.ofNat (48 + n) else Char.ofNat (87 + n)

/-- Lower-case hex string of a byte list, as Python's `hexdigest()`. -/
def bytesToHex (l : List Nat) : String :=
  String.mk ((l.map fun b => [hexChar (b / 16 % 16), hexChar (b % 16)]).flatten)

/-- UTF-8 bytes of one character, as Python's `str.encode('utf-8')`. -/
def charUtf8 (c : Char) : List Nat :=
  let n := c.toNat
  if n < 128 then [n]
  else if n < 2048 then [192 + n / 64, 128 + n % 64]
  else if n < 65536 then [224 + n / 4096, 128 + n / 64 % 64, 128 + n % 64]
  else [240 + n / 262144, 128 + n / 4096 % 64, 128 + n / 64 % 64, 128 + n % 64]

/-- UTF-8 bytes of a string. -/
def strUtf8 (s : String) : List Nat := (s.data.map charUtf8).flatten

/-- `hmac.new(key, msg, hashlib.sha256).hexdigest()` over UTF-8 strings. -/
def hmacSha256Hex (key msg : String) : String :=
  bytesToHex (hmacSha256 (strUtf8 key) (strUtf8 msg))

/-! ## Request signer (`safetyculture_agent/utils/request_signer.py`)

`RequestSigner.sign_request` serializes the body with
`json.dumps(body, sort_keys=True) if body else ''` (so a `None` body *and a
falsy empty dict* both serialize to the empty string), builds the canonical
message `METHOD|URL|BODY|TIMESTAMP`, and signs it with HMAC-SHA256.
`verify_signature` first applies the replay-window and clock-skew checks,
then recomputes the signature and compares for equality
(`hmac.compare_digest`; its constant-time character is outside this model).
Request bodies are `Dict[str, Any]` in the source; the embedding restricts
values to strings, which preserves the `sort_keys` serialization structure
that the claims depend on.  The ambient clock (`time.time()`) is passed
explicitly as `now`. -/

/-- A Python dict with string keys and string values, in insertion order. -/
def PyDict : Type := List (String × String)

instance : DecidableEq PyDict := by unfold PyDict; infer_instance

/-- Insert into a key-sorted association list (used to model `sort_keys`). -/
def insertSortedKey (p : String × String) : List (String × String) → List (String × String)
  | [] => [p]
  | q :: qs => if p.1 < q.1 then p :: q :: qs else q :: insertSortedKey p qs

/-- Sort a dict by key, as `json.dumps(..., sort_keys=True)` does. -/
def sortByKey (l : List (String × String)) : List (String × String) :=
  l.foldr insertSortedKey []

/-- JSON string escaping (quote and backslash; other escapes not needed for
the inputs in this development). -/
def jsonEscape (s : String) : String :=
  String.mk (s.data.foldr (fun c acc =>
    if c = '\"' then '\\' :: '\"' :: acc
    else if c = '\\' then '\\' :: '\\' :: acc
    else c :: acc) [])

/-- `json.dumps(d, sort_keys=True)` for a string-valued dict: sorted keys,
`": "` and `", "` separators. -/
def pyJsonDumps (d : PyDict) : String :=
  "\x7b" ++
    String.intercalate ", "
      ((sortByKey d).map fun kv =>
        "\"" ++ jsonEscape kv.1 ++ "\": \"" ++ jsonEscape kv.2 ++ "\"") ++
  "\x7d"

/-- Python truthiness of an optional dict: `None` and `{}` are both falsy. -/
def pyTruthy : Option PyDict → Bool
  | none => false
  | some l => !l.isEmpty

/-- Python's `str.upper()` on one ASCII character (the HTTP methods this
repository uppercases are ASCII). -/
def pyUpperChar (c : Char) : Char :=
  if 'a' ≤ c ∧ c ≤ 'z' then Char.ofNat (c.toNat - 32) else c

/-- Python's `str.upper()` restricted to ASCII strings. -/
def pyUpper (s : String) : String := String.mk (s.data.map pyUpperChar)

/-- `CLOCK_SKEW_TOLERANCE_SECONDS` from the source. -/
def CLOCK_SKEW_TOLERANCE_SECONDS : Int := 60

/-- The signer's configuration: the signing key and the replay window. -/
structure RequestSigner where
  signingKey : String
  timestampWindow : Int

/-- `body_str = json.dumps(body, sort_keys=True) if body else ''`. -/
def bodyStr (body : Option PyDict) : String :=
  if pyTruthy body then pyJsonDumps (body.getD []) else ""

/-- The canonical message `METHOD|URL|BODY|TIMESTAMP` that gets signed. -/
def canonicalMessage (method url : String) (body : Option PyDict) (timestamp : Int) : String :=
  pyUpper method ++ "|" ++ url ++ "|" ++ bodyStr body ++ "|" ++ toString timestamp

/-- The headers returned by `sign_request`. -/
structure SignedHeaders where
  xSignature : String
  xTimestamp : String
  xSignatureAlgorithm : String

/-- `RequestSigner.sign_request` with the timestamp made explicit (the source
defaults it to `int(time.time())`). -/
def RequestSigner.sign_request (rs : RequestSigner) (method url : String)
    (body : Option PyDict) (timestamp : Int) : SignedHeaders :=
  ⟨hmacSha256Hex rs.signingKey (canonicalMessage method url body timestamp),
   toString timestamp, "HMAC-SHA256"⟩

/-- `RequestSigner.verify_signature`; `now` is the explicit clock reading
(`int(time.time())` in the source). -/
def RequestSigner.verify_signature (rs : RequestSigner) (now : Int)
    (method url signature : String) (timestamp : Int) (body : Option PyDict) : Bool :=
  let age := now - timestamp
  if age > rs.timestampWindow then false
  else if age < -CLOCK_SKEW_TOLERANCE_SECONDS then false
  else
    signature == (rs.sign_request method url body timestamp).xSignature

/-! ## Circuit breaker (`safetyculture_agent/utils/circuit_breaker.py`)

A direct translation of the three-state circuit breaker.  Wall-clock
readings (`time.time()`) are passed explicitly: `now` is the reading taken
inside the lock section of `call`, and `tEnd` the reading taken when a
failure is recorded after the wrapped function ran.  The wrapped coroutine
itself is replaced by its observable outcome (success or failure); the
result of `call` records whether the function was invoked at all. -/

/-- `CircuitState` from the source. -/
inductive CircuitState where
  | closed
  | open
  | half_open
deriving DecidableEq

/-- `EXPONENTIAL_BACKOFF_BASE` from the source. -/
def EXPONENTIAL_BACKOFF_BASE : ℚ := 2

/-- Configuration and mutable state of a `CircuitBreaker` instance. -/
structure CircuitBreaker where
  failure_threshold : ℕ
  success_threshold : ℕ
  base_timeout : ℚ
  max_timeout : ℚ
  state : CircuitState
  failure_count : ℕ
  success_count : ℕ
  last_failure_time : ℚ
  open_count : ℕ
  total_calls : ℕ
  total_failures : ℕ
  total_successes : ℕ
deriving DecidableEq

/-- A freshly constructed breaker (`CircuitBreaker.__init__`). -/
def CircuitBreaker.init (failure_threshold success_threshold : ℕ)
    (base_timeout max_timeout : ℚ) : CircuitBreaker :=
  ⟨failure_threshold, success_threshold, base_timeout, max_timeout,
   .closed, 0, 0, 0, 0, 0, 0, 0⟩

/-- `_calculate_timeout`: exponential backoff capped at `max_timeout`. -/
def CircuitBreaker.calculate_timeout (cb : CircuitBreaker) : ℚ :=
  min (cb.base_timeout * EXPONENTIAL_BACKOFF_BASE ^ cb.open_count) cb.max_timeout

/-- `_should_attempt_reset`: OPEN and the timeout has elapsed. -/
def CircuitBreaker.should_attempt_reset (cb : CircuitBreaker) (now : ℚ) : Bool :=
  cb.state = .open ∧ now - cb.last_failure_time ≥ cb.calculate_timeout

/-- `_transition_to_open`: records the failure time and bumps `open_count`. -/
def CircuitBreaker.transition_to_open (cb : CircuitBreaker) (now : ℚ) : CircuitBreaker :=
  { cb with state := .open, last_failure_time := now,
            open_count := cb.open_count + 1, success_count := 0 }

/-- `_transition_to_half_open`: resets `success_count` for the trial phase. -/
def CircuitBreaker.transition_to_half_open (cb : CircuitBreaker) : CircuitBreaker :=
  { cb with state := .half_open, success_count := 0 }

/-- `_transition_to_closed`: resets all counters including `open_count`. -/
def CircuitBreaker.transition_to_closed (cb : CircuitBreaker) : CircuitBreaker :=
  { cb with state := .closed, failure_count := 0, success_count := 0, open_count := 0 }

/-- `_record_success`. -/
def CircuitBreaker.record_success (cb : CircuitBreaker) : CircuitBreaker :=
  let cb := { cb with total_successes := cb.total_successes + 1 }
  if cb.state = .half_open then
    let cb := { cb with success_count := cb.success_count + 1 }
    if cb.success_count ≥ cb.success_threshold then cb.transition_to_closed else cb
  else if cb.state = .closed then
    { cb with failure_count := 0 }
  else cb

/-- `_record_failure`; `now` is the `time.time()` reading taken inside
`_transition_to_open` when the circuit opens. -/
def CircuitBreaker.record_failure (cb : CircuitBreaker) (now : ℚ) : CircuitBreaker :=
  let cb := { cb with total_failures := cb.total_failures + 1 }
  if cb.state = .half_open then
    cb.transition_to_open now
  else if cb.state = .closed then
    let cb := { cb with failure_count := cb.failure_count + 1 }
    if cb.failure_count ≥ cb.failure_threshold then cb.transition_to_open now else cb
  else cb

/-- The lock-held section at the top of `CircuitBreaker.call`: count the
call, possibly move OPEN→HALF_OPEN, and reject if still OPEN.  Returns the
updated breaker and whether the call was admitted (`false` means
`CircuitBreakerOpenError` was raised and the wrapped function never ran). -/
def CircuitBreaker.admission (cb : CircuitBreaker) (now : ℚ) : CircuitBreaker × Bool :=
  let cb := { cb with total_calls := cb.total_calls + 1 }
  let cb := if cb.should_attempt_reset now then cb.transition_to_half_open else cb
  if cb.state = .open then (cb, false) else (cb, true)

/-- Observable result of `CircuitBreaker.call`: rejected without invoking
the wrapped function, returned its result, or re-raised its exception. -/
inductive CallResult where
  | rejected
  | succeeded
  | failed
deriving DecidableEq

/-- `CircuitBreaker.call` with the wrapped coroutine replaced by its outcome
(`outcome = true` means it returned normally).  `now` is the clock reading
in the lock section, `tEnd` the reading when a failure is recorded. -/
def CircuitBreaker.call (cb : CircuitBreaker) (now tEnd : ℚ) (outcome : Bool) :
    CircuitBreaker × CallResult :=
  match cb.admission now with
  | (cb1, false) => (cb1, .rejected)
  | (cb1, true) =>
    if outcome then (cb1.record_success, .succeeded)
    else (cb1.record_failure tEnd, .failed)

/-- Whether the wrapped function was invoked during a `call`. -/
def CallResult.invoked : CallResult → Bool
  | .rejected => false
  | _ => true

/-- A run of consecutive failed calls through the breaker: call times are
given by the functions `ts` (lock-section reading) and `tf` (failure
reading) per call index. -/
def CircuitBreaker.failRun (cb : CircuitBreaker) (ts tf : ℕ → ℚ) : ℕ → CircuitBreaker
  | 0 => cb
  | k + 1 => ((cb.failRun ts tf k).call (ts k) (tf k) false).1

/-- A run of consecutive successful calls through the breaker. -/
def CircuitBreaker.succRun (cb : CircuitBreaker) (ts tf : ℕ → ℚ) : ℕ → CircuitBreaker
  | 0 => cb
  | k + 1 => ((cb.succRun ts tf k).call (ts k) (tf k) true).1

/-- A constant clock for concrete runs (every reading is 0). -/
def zeroClock : ℕ → ℚ := fun _ => 0

/-! ## Rate limiter (`safetyculture_agent/utils/rate_limiter.py`)

The token bucket refills lazily from the monotonic clock; the waiting loop
in `acquire` alternates refills, availability checks and bounded sleeps.
Monotonic clock readings are passed explicitly: one pair per loop iteration
(the `time.monotonic()` read inside `_refill_tokens`, and the one in the
`wait_time` check), plus the loop's entry reading `wait_start`.  The loop
itself is driven by the finite list of readings; running out of readings is
reported as `.pending` (the real loop would simply sleep again), which no
theorem below treats as a completed acquisition. -/

/-- Python `int(q)` (truncation toward zero). -/
def pyInt (q : ℚ) : ℤ := if 0 ≤ q then ⌊q⌋ else -⌊-q⌋

/-- State of a `TokenBucketRateLimiter`. -/
structure TokenBucketRateLimiter where
  rate : ℚ
  burst : ℤ
  max_wait : ℚ
  tokens : ℚ
  last_update : ℚ
deriving DecidableEq

/-- `TokenBucketRateLimiter.__init__`: `burst or int(rate)` (`None` *and* a
zero burst both fall back to `int(rate)` through Python truthiness), tokens
start at burst capacity. -/
def TokenBucketRateLimiter.init (rate : ℚ) (burst : Option ℤ) (max_wait now : ℚ) :
    TokenBucketRateLimiter :=
  let b := match burst with
    | none => pyInt rate
    | some n => if n = 0 then pyInt rate else n
  ⟨rate, b, max_wait, (b : ℚ), now⟩

/-- `_refill_tokens` at the clock reading `now`. -/
def TokenBucketRateLimiter.refill_tokens (st : TokenBucketRateLimiter) (now : ℚ) :
    TokenBucketRateLimiter :=
  let elapsed := now - st.last_update
  let tokens_to_add := elapsed * st.rate
  { st with tokens := min (st.burst : ℚ) (st.tokens + tokens_to_add),
            last_update := now }

/-- Result of an `acquire` attempt. -/
inductive AcquireResult where
  | ok
  | rateLimitError
  | valueError
  | pending
deriving DecidableEq

/-- The waiting loop inside `acquire`: refill, take the tokens if enough are
available, give up with `SafetyCultureRateLimitError` once `max_wait` is
exceeded, otherwise sleep and repeat with the next clock readings. -/
def TokenBucketRateLimiter.acquireLoop (st : TokenBucketRateLimiter) (n : ℤ)
    (waitStart : ℚ) : List (ℚ × ℚ) → TokenBucketRateLimiter × AcquireResult
  | [] => (st, .pending)
  | (tRefill, tCheck) :: rest =>
    let st := st.refill_tokens tRefill
    if (n : ℚ) ≤ st.tokens then ({ st with tokens := st.tokens - (n : ℚ) }, .ok)
    else if st.max_wait ≤ tCheck - waitStart then (st, .rateLimitError)
    else st.acquireLoop n waitStart rest

/-- `TokenBucketRateLimiter.acquire`: a `ValueError` when more tokens than
the burst capacity are requested (raised before the lock, leaving the state
untouched), else the waiting loop. -/
def TokenBucketRateLimiter.acquire (st : TokenBucketRateLimiter) (n : ℤ)
    (waitStart : ℚ) (clock : List (ℚ × ℚ)) : TokenBucketRateLimiter × AcquireResult :=
  if st.burst < n then (st, .valueError)
  else st.acquireLoop n waitStart clock

/-- `TokenBucketRateLimiter.try_acquire`: non-blocking refill-and-check. -/
def TokenBucketRateLimiter.try_acquire (st : TokenBucketRateLimiter) (n : ℤ)
    (now : ℚ) : TokenBucketRateLimiter × Bool :=
  let st := st.refill_tokens now
  if (n : ℚ) ≤ st.tokens then ({ st with tokens := st.tokens - (n : ℚ) }, true)
  else (st, false)

/-- `TokenBucketRateLimiter.reset`: back to full capacity. -/
def TokenBucketRateLimiter.reset (st : TokenBucketRateLimiter) (now : ℚ) :
    TokenBucketRateLimiter :=
  { st with tokens := (st.burst : ℚ), last_update := now }

/-- The bucket invariant of §3 of the spec: `0 ≤ tokens ≤ burst`. -/
def TBInv (st : TokenBucketRateLimiter) : Prop :=
  0 ≤ st.tokens ∧ st.tokens ≤ (st.burst : ℚ)

instance (st : TokenBucketRateLimiter) : Decidable (TBInv st) := by
  unfold TBInv; infer_instance

/-- State of an `ExponentialBackoffRateLimiter`. -/
structure ExponentialBackoffRateLimiter where
  bucket : TokenBucketRateLimiter
  initial_backoff : ℚ
  max_backoff : ℚ
  backoff_multiplier : ℚ
  current_backoff : ℚ
  consecutive_failures : ℕ
deriving DecidableEq

/-- `ExponentialBackoffRateLimiter.acquire`: one bucket attempt; on success
reset the backoff state, on `SafetyCultureRateLimitError` bump the failure
counter, sleep `current_backoff`, grow the backoff (capped), and retry the
bucket exactly once, propagating the retry's outcome without any reset.
A `ValueError` is not caught and propagates with the backoff state
untouched.  `ws1/clock1` are the clock readings of the first bucket attempt
and `ws2/clock2` those of the retry. -/
def ExponentialBackoffRateLimiter.acquire (st : ExponentialBackoffRateLimiter)
    (n : ℤ) (ws1 : ℚ) (clock1 : List (ℚ × ℚ)) (ws2 : ℚ) (clock2 : List (ℚ × ℚ)) :
    ExponentialBackoffRateLimiter × AcquireResult :=
  match st.bucket.acquire n ws1 clock1 with
  | (b1, .ok) =>
    ({ st with bucket := b1, current_backoff := st.initial_backoff,
               consecutive_failures := 0 }, .ok)
  | (b1, .rateLimitError) =>
    let st1 := { st with bucket := b1,
                         consecutive_failures := st.consecutive_failures + 1 }
    let nb := min st1.max_backoff (st1.current_backoff * st1.backoff_multiplier)
    let st2 := { st1 with current_backoff := nb }
    match st2.bucket.acquire n ws2 clock2 with
    | (b2, r) => ({ st2 with bucket := b2 }, r)
  | (b1, r) => ({ st with bucket := b1 }, r)

/-- `ExponentialBackoffRateLimiter.reset`. -/
def ExponentialBackoffRateLimiter.reset (st : ExponentialBackoffRateLimiter)
    (now : ℚ) : ExponentialBackoffRateLimiter :=
  { st with bucket := st.bucket.reset now,
            current_backoff := st.initial_backoff, consecutive_failures := 0 }

/-! ## Input validator (`safetyculture_agent/utils/input_validator.py`)

A direct translation of the whitelist validator.  Python regular-expression
anchoring is modelled with its actual semantics: `re.match(r'^[...]+$', s)`
matches when the whole string consists of allowed characters, *or* when
everything but a single trailing newline does — in Python's default mode
`$` also matches just before a newline that ends the string.  Parameter
values (`Any` in the source) are restricted to the shapes the validators
dispatch on: integers, strings, booleans and lists of strings.
`str.isprintable` is modelled for the ASCII range (control characters are
the characters below 32 and the character 127). -/

/-- Python `str.strip()` (ASCII whitespace). -/
def pyStrip (s : String) : String :=
  String.mk (((s.data.dropWhile Char.isWhitespace).reverse.dropWhile
    Char.isWhitespace).reverse)

/-- Python `str.lower()` on ASCII strings. -/
def pyLowerChar (c : Char) : Char :=
  if 'A' ≤ c ∧ c ≤ 'Z' then Char.ofNat (c.toNat + 32) else c

/-- Python `str.lower()` restricted to ASCII strings. -/
def pyLower (s : String) : String := String.mk (s.data.map pyLowerChar)

/-- Python `str.startswith`. -/
def pyStartsWith (s p : String) : Bool := p.data.isPrefixOf s.data

/-- Substring search over character lists (Python's `in` on strings). -/
def subList (p : List Char) : List Char → Bool
  | [] => p.isEmpty
  | c :: rest => p.isPrefixOf (c :: rest) || subList p rest

/-- Python `pat in s`. -/
def pyContains (s pat : String) : Bool := subList pat.data s.data

/-- Split a character list at the first occurrence of a pattern, returning
the parts before and after it (used to model `urlparse`). -/
def subSplit (p : List Char) : List Char → Option (List Char × List Char)
  | [] => if p.isEmpty then some ([], []) else none
  | c :: rest =>
    if p.isPrefixOf (c :: rest) then some ([], (c :: rest).drop p.length)
    else match subSplit p rest with
      | some (pre, post) => some (c :: pre, post)
      | none => none

/-- Python `str.split(sep)` for a single-character separator. -/
def splitCharList (c : Char) : List Char → List (List Char)
  | [] => [[]]
  | x :: xs =>
    let r := splitCharList c xs
    if x = c then [] :: r
    else match r with
      | [] => [[x]]
      | h :: t => (x :: h) :: t

/-- Python `s.split(',')`. -/
def pySplitComma (s : String) : List String :=
  (splitCharList ',' s.data).map String.mk

/-- The character class `[a-zA-Z0-9_-]` used for asset/template/audit ids. -/
def allowedIdChar (c : Char) : Bool :=
  ('a' ≤ c && c ≤ 'z') || ('A' ≤ c && c ≤ 'Z') || ('0' ≤ c && c ≤ '9') ||
  c = '-' || c = '_'

/-- The character class `[a-zA-Z0-9_]` of `FIELD_NAME_PATTERN`. -/
def fieldNameChar (c : Char) : Bool :=
  ('a' ≤ c && c ≤ 'z') || ('A' ≤ c && c ≤ 'Z') || ('0' ≤ c && c ≤ '9') || c = '_'

/-- Python `re.match(r'^[class]+$', s) is not None`: all of `s` — or all of
`s` except one trailing newline, which `$` tolerates — lies in the class,
and that core is nonempty. -/
def pyRegexFullAnchor (p : Char → Bool) (s : String) : Bool :=
  let cs := s.data
  let core := if cs.getLast? = some '\n' then cs.dropLast else cs
  !core.isEmpty && core.all p

/-- Python `str.isprintable() or str.isspace()` per character, restricted to
the ASCII range: everything except control characters survives the
query/string sanitization filter. -/
def pyPrintableOrSpace (c : Char) : Bool :=
  c.isWhitespace || (32 ≤ c.toNat && c.toNat ≠ 127)

/-- A parameter value, restricted to the shapes the validators dispatch on. -/
inductive ParamValue where
  | int (n : ℤ)
  | str (s : String)
  | bool (b : Bool)
  | strList (l : List String)
deriving DecidableEq

/-- Python `str(value)` for the supported parameter shapes. -/
def pyStr : ParamValue → String
  | .int n => toString n
  | .str s => s
  | .bool b => if b then "True" else "False"
  | .strList l =>
    "[" ++ String.intercalate ", " (l.map fun s => "\x27" ++ s ++ "\x27") ++ "]"

/-- Python `int(value)` for the supported shapes (`None` encodes the
`ValueError`/`TypeError` the source converts into a validation error).
Strings follow `int(str)`: surrounding whitespace, an optional sign and
decimal digits. -/
def pyToInt : ParamValue → Option ℤ
  | .int n => some n
  | .bool b => some (if b then 1 else 0)
  | .strList _ => none
  | .str s =>
    let digits : List Char → Option ℤ := fun cs =>
      if !cs.isEmpty && cs.all Char.isDigit then
        some ((cs.foldl (fun a c => a * 10 + (c.toNat - 48)) 0 : ℕ) : ℤ)
      else none
    match (pyStrip s).data with
    | '-' :: rest => (digits rest).map (fun n => -n)
    | '+' :: rest => digits rest
    | cs => digits cs

namespace InputValidator

/-- `ALLOWED_PARAMS` from the source. -/
def ALLOWED_PARAMS : List String :=
  ["query", "limit", "offset", "fields", "field", "sort", "filter", "page",
   "per_page", "order", "include", "exclude", "archived", "modified_after",
   "template", "asset_type", "site_id", "name", "email"]

def MAX_LIMIT : ℤ := 1000
def MAX_OFFSET : ℤ := 100000
def MAX_QUERY_LENGTH : ℕ := 500
def MAX_STRING_LENGTH : ℕ := 1000

/-- `_validate_query`. -/
def validate_query (v : ParamValue) : Except String String :=
  match v with
  | .str q =>
    if MAX_QUERY_LENGTH < q.length then .error "Query too long"
    else .ok (pyStrip (String.mk (q.data.filter pyPrintableOrSpace)))
  | _ => .error "Query must be a string"

/-- `_validate_limit`. -/
def validate_limit (v : ParamValue) : Except String ℤ :=
  match pyToInt v with
  | none => .error "Limit must be an integer"
  | some n => if n < 1 ∨ MAX_LIMIT < n then .error "Limit out of range" else .ok n

/-- `_validate_offset`. -/
def validate_offset (v : ParamValue) : Except String ℤ :=
  match pyToInt v with
  | none => .error "Offset must be an integer"
  | some n => if n < 0 ∨ MAX_OFFSET < n then .error "Offset out of range" else .ok n

/-- One field name inside `_validate_fields`. -/
def validateFieldName (f : String) : Except String String :=
  let fs := pyStrip f
  if pyRegexFullAnchor fieldNameChar fs then .ok fs
  else .error ("Invalid field name: " ++ fs)

/-- `_validate_fields` (list, comma-separated string, or single value). -/
def validate_fields (v : ParamValue) : Except String ParamValue :=
  match v with
  | .strList fields =>
    match fields.mapM validateFieldName with
    | .error e => .error e
    | .ok vfs => if vfs.isEmpty then .error "Fields parameter cannot be empty"
                 else .ok (.strList vfs)
  | .str s =>
    let parts := (pySplitComma s).map pyStrip |>.filter (· ≠ "")
    match parts.mapM validateFieldName with
    | .error e => .error e
    | .ok vfs => if vfs.isEmpty then .error "Fields parameter cannot be empty"
                 else .ok (.str (String.intercalate "," vfs))
  | v =>
    match validateFieldName (pyStr v) with
    | .error e => .error e
    | .ok fs => .ok (.str fs)

/-- `_validate_sort`. -/
def validate_sort (v : ParamValue) : Except String String :=
  match v with
  | .str s =>
    let s := pyStrip s
    let f := if pyStartsWith s "-" then String.mk (s.data.drop 1) else s
    if pyRegexFullAnchor fieldNameChar f then .ok s
    else .error ("Invalid sort field: " ++ f)
  | _ => .error "Sort must be a string"

/-- `_validate_boolean`. -/
def validate_boolean (v : ParamValue) : Except String String :=
  match v with
  | .bool b => .ok (if b then "true" else "false")
  | .str s => if pyLower s = "true" ∨ pyLower s = "false" then .ok (pyLower s)
              else .error "Boolean parameter must be true/false"
  | _ => .error "Boolean parameter must be true/false"

/-- `_sanitize_string`. -/
def sanitize_string (v : ParamValue) : Except String String :=
  let s := pyStr v
  if MAX_STRING_LENGTH < s.length then .error "String too long"
  else .ok (pyStrip (String.mk (s.data.filter pyPrintableOrSpace)))

/-- The list-wrapping for `asset_type`/`site_id`/`email` values. -/
def wrapList : ParamValue → ParamValue
  | .strList l => .strList l
  | v => .strList [pyStr v]

/-- Dispatch on the parameter name, as the `validate_params` loop body. -/
def validateOne (k : String) (v : ParamValue) : Except String ParamValue :=
  if k = "query" then (validate_query v).map .str
  else if k = "limit" then (validate_limit v).map .int
  else if k = "offset" then (validate_offset v).map .int
  else if k = "fields" ∨ k = "field" then validate_fields v
  else if k = "sort" ∨ k = "order" then (validate_sort v).map .str
  else if k = "archived" then (validate_boolean v).map .str
  else if k = "asset_type" ∨ k = "site_id" ∨ k = "email" then .ok (wrapList v)
  else (sanitize_string v).map .str

/-- `validate_params` over the dict in insertion order: the first
non-whitelisted key or invalid value raises. -/
def validate_params : List (String × ParamValue) → Except String (List (String × ParamValue))
  | [] => .ok []
  | (k, v) :: rest =>
    if k ∉ ALLOWED_PARAMS then .error ("Invalid parameter: " ++ k)
    else
      match validateOne k v with
      | .error e => .error e
      | .ok v2 =>
        match validate_params rest with
        | .error e => .error e
        | .ok vr => .ok ((k, v2) :: vr)

/-- `validate_asset_id` (also the body of `validate_template_id` and
`validate_audit_id`). -/
def validate_asset_id (asset_id : String) : Except String String :=
  if asset_id = "" ∨ pyStrip asset_id = "" then .error "Asset ID cannot be empty"
  else if ¬ pyRegexFullAnchor allowedIdChar asset_id then
    .error ("Invalid asset ID format: " ++ asset_id)
  else if 100 < asset_id.length then .error "Asset ID too long"
  else .ok (pyStrip asset_id)

/-- `validate_endpoint`. -/
def validate_endpoint (endpoint : String) : Except String String :=
  let e := pyStrip endpoint
  if ¬ pyStartsWith e "/" then .error ("Endpoint must start with /: " ++ e)
  else
    match ["..", "//", "\\", "<", ">", "\x7b", "\x7d"].find? (fun p => pyContains e p) with
    | some p => .error ("Endpoint contains suspicious pattern " ++ p)
    | none => .ok e

/-- `validate_and_enforce_https`, over `scheme://host/path`-shaped URLs
(`urlparse` restricted to what the client builds: base URL ++ endpoint). -/
def validate_and_enforce_https (url : String) (allow_localhost : Bool) :
    Except String String :=
  if pyStrip url = "" then .error "URL cannot be empty"
  else
    let u := pyStrip url
    match subSplit "://".data u.data with
    | none => .error "All external URLs must use HTTPS protocol"
    | some (scheme, rest) =>
      let netloc := rest.takeWhile (· ≠ '/')
      if allow_localhost ∧ (netloc = "localhost".data ∨ netloc = "127.0.0.1".data) then
        if scheme = "http".data ∨ scheme = "https".data then .ok u
        else .error "Localhost URL must use http or https"
      else if scheme ≠ "https".data then .error "All external URLs must use HTTPS protocol"
      else if netloc.isEmpty then .error "URL missing hostname"
      else .ok u

end InputValidator

/-- Whether an `Except` result is a success (a call that did not raise). -/
def exceptOk {α : Type} : Except String α → Bool
  | .ok _ => true
  | .error _ => false

instance {ε α : Type} [DecidableEq ε] [DecidableEq α] :
    DecidableEq (Except ε α) := fun x y =>
  match x, y with
  | .ok a, .ok b =>
    if h : a = b then isTrue (by rw [h])
    else isFalse (by intro c; injection c; contradiction)
  | .error a, .error b =>
    if h : a = b then isTrue (by rw [h])
    else isFalse (by intro c; injection c; contradiction)
  | .ok _, .error _ => isFalse (by intro c; exact Except.noConfusion c)
  | .error _, .ok _ => isFalse (by intro c; exact Except.noConfusion c)

/-! ## API access layer
(`safetyculture_agent/tools/safetyculture_api_client.py`)

`_make_request_internal` is the full request pipeline: ensure session,
**acquire a rate-limit token**, validate the endpoint, build and validate
the URL, validate the parameters (skipped for a falsy `params`), fetch the
credential, build headers, optionally sign, then perform the HTTP call,
classifying the response (429 → rate-limit error carrying `Retry-After` or
its 60 s default, 401 → auth error, other ≥400 → `ClientResponseError`) and
retrying `ClientResponseError`/network errors by *re-entering the whole
pipeline* with `retry_count + 1` while `retry_count < max_retries`.
`_make_request` wraps that pipeline in the circuit breaker.  The network is
an explicit function from the retry level to an outcome; clock readings for
each retry level's limiter acquisition are inputs as well.  The middle
component of the result counts HTTP attempts actually performed. -/

/-- `DEFAULT_RETRY_AFTER_SECONDS` from the source. -/
def DEFAULT_RETRY_AFTER_SECONDS : ℕ := 60

/-- Outcome of one HTTP attempt: a response (status, optional `Retry-After`
header, body) or an `aiohttp.ClientError` (network failure). -/
inductive HttpResult where
  | resp (status : ℕ) (retryAfter : Option String) (body : String)
  | netError
deriving DecidableEq

/-- The typed errors the request path can raise (§7 of the spec).
`rateLimit (some s)` is the server 429 carrying the `Retry-After` value `s`;
`rateLimit none` is local limiter exhaustion after `max_wait`;
`valueErr` is the uncaught `ValueError` for over-burst requests;
`pendingClock` marks the embedding running out of clock readings. -/
inductive ApiError where
  | validation (msg : String)
  | rateLimit (retryAfter : Option String)
  | auth
  | api (status : Option ℕ)
  | credential
  | valueErr
  | pendingClock
  | circuitOpen
deriving DecidableEq

/-- Configuration the pipeline consumes: `base_url` and `max_retries` from
`SafetyCultureConfig`, and the credential lookup's outcome (`none` encodes
`SafetyCultureCredentialError` from `get_api_token`). -/
structure ApiConfig where
  base_url : String
  max_retries : ℕ
  token : Option String
deriving DecidableEq

/-- Clock readings for one retry level's `rate_limiter.acquire()`: the
first bucket attempt and the backoff retry. -/
structure AcquireIn where
  ws1 : ℚ
  clock1 : List (ℚ × ℚ)
  ws2 : ℚ
  clock2 : List (ℚ × ℚ)

/-- `_make_request_internal`, with structural fuel standing in for the
recursion on `retry_count` (the wrapper below supplies enough fuel for all
permitted retries, so the `fuel = 0` case is unreachable). -/
def makeRequestInternalFuel (cfg : ApiConfig) (responses : ℕ → HttpResult)
    (acquires : ℕ → AcquireIn) (endpoint : String)
    (params : List (String × ParamValue)) :
    ℕ → ℕ → ExponentialBackoffRateLimiter →
    ExponentialBackoffRateLimiter × ℕ × Except ApiError String
  | 0, _, st => (st, 0, .error .pendingClock)
  | fuel + 1, rc, st =>
    let a := acquires rc
    match st.acquire 1 a.ws1 a.clock1 a.ws2 a.clock2 with
    | (st1, .rateLimitError) => (st1, 0, .error (.rateLimit none))
    | (st1, .valueError) => (st1, 0, .error .valueErr)
    | (st1, .pending) => (st1, 0, .error .pendingClock)
    | (st1, .ok) =>
      match InputValidator.validate_endpoint endpoint with
      | .error m => (st1, 0, .error (.validation m))
      | .ok safe_endpoint =>
        match InputValidator.validate_and_enforce_https
            (cfg.base_url ++ safe_endpoint) false with
        | .error m => (st1, 0, .error (.validation m))
        | .ok _validated_url =>
          match (if params.isEmpty then .ok params
                 else InputValidator.validate_params params) with
          | .error m => (st1, 0, .error (.validation m))
          | .ok _vparams =>
            match cfg.token with
            | none => (st1, 0, .error .credential)
            | some _tok =>
              match responses rc with
              | .resp status ra body =>
                if status = 429 then
                  (st1, 1, .error (.rateLimit
                    (some (ra.getD (toString DEFAULT_RETRY_AFTER_SECONDS)))))
                else if status = 401 then (st1, 1, .error .auth)
                else if 400 ≤ status then
                  if rc < cfg.max_retries then
                    match makeRequestInternalFuel cfg responses acquires endpoint
                        params fuel (rc + 1) st1 with
                    | (st2, k, r) => (st2, k + 1, r)
                  else (st1, 1, .error (.api (some status)))
                else (st1, 1, .ok body)
              | .netError =>
                if rc < cfg.max_retries then
                  match makeRequestInternalFuel cfg responses acquires endpoint
                      params fuel (rc + 1) st1 with
                  | (st2, k, r) => (st2, k + 1, r)
                else (st1, 1, .error (.api none))

/-- `_make_request_internal` entered at `retry_count = rc`. -/
def makeRequestInternal (cfg : ApiConfig) (responses : ℕ → HttpResult)
    (acquires : ℕ → AcquireIn) (endpoint : String)
    (params : List (String × ParamValue)) (st : ExponentialBackoffRateLimiter)
    (rc : ℕ) : ExponentialBackoffRateLimiter × ℕ × Except ApiError String :=
  makeRequestInternalFuel cfg responses acquires endpoint params
    (cfg.max_retries + 1 - rc) rc st

/-- `_make_request`: the internal pipeline guarded by the circuit breaker.
`now` and `tEnd` are the breaker's clock readings. -/
def makeRequest (cb : CircuitBreaker) (now tEnd : ℚ) (cfg : ApiConfig)
    (responses : ℕ → HttpResult) (acquires : ℕ → AcquireIn) (endpoint : String)
    (params : List (String × ParamValue)) (st : ExponentialBackoffRateLimiter) :
    CircuitBreaker × ExponentialBackoffRateLimiter × ℕ × Except ApiError String :=
  match cb.admission now with
  | (cb1, false) => (cb1, st, 0, .error .circuitOpen)
  | (cb1, true) =>
    match makeRequestInternal cfg responses acquires endpoint params st 0 with
    | (st1, k, .ok v) => (cb1.record_success, st1, k, .ok v)
    | (st1, k, .error e) => (cb1.record_failure tEnd, st1, k, .error e)

/-- A run of identical client requests: call `i` uses breaker clock readings
`times i`, network `responsesF i` and limiter clock readings `acquiresF i`,
threading the breaker and limiter states. -/
def apiRun (cb : CircuitBreaker) (st : ExponentialBackoffRateLimiter)
    (cfg : ApiConfig) (responsesF : ℕ → ℕ → HttpResult)
    (acquiresF : ℕ → ℕ → AcquireIn) (times : ℕ → ℚ × ℚ) (endpoint : String)
    (params : List (String × ParamValue)) :
    ℕ → CircuitBreaker × ExponentialBackoffRateLimiter
  | 0 => (cb, st)
  | k + 1 =>
    let p := apiRun cb st cfg responsesF acquiresF times endpoint params k
    let r := makeRequest p.1 (times k).1 (times k).2 cfg (responsesF k)
      (acquiresF k) endpoint params p.2
    (r.1, r.2.1)

/-- A network that always answers with a given response. -/
def constResponses (h : HttpResult) : ℕ → HttpResult := fun _ => h

/-- Limiter clock readings granting an immediate token at time 0 on every
retry level. -/
def instantAcquires : ℕ → AcquireIn := fun _ => ⟨0, [(0, 0)], 0, []⟩

/-- Per-call inputs for concrete runs: every call sees the same network and
clocks. -/
def constResponsesF (h : HttpResult) : ℕ → ℕ → HttpResult := fun _ => constResponses h

def instantAcquiresF : ℕ → ℕ → AcquireIn := fun _ => instantAcquires

def zeroTimes : ℕ → ℚ × ℚ := fun _ => (0, 0)

/-- A full limiter: rate 10, burst 20, 20 tokens available at time 0. -/
def fullLimiter : ExponentialBackoffRateLimiter :=
  ⟨⟨10, 20, 30, 20, 0⟩, 1, 30, 2, 1, 0⟩

/-! ## Theorems -/

/-- A breaker that is not OPEN never attempts a reset. -/
theorem should_attempt_reset_of_not_open (cb : CircuitBreaker) (now : ℚ)
    (h : cb.state ≠ .open) : cb.should_attempt_reset now = false := by
  simp [CircuitBreaker.should_attempt_reset, h]

/-- Admission for a breaker that is not OPEN: the call is counted and let
through with no state transition. -/
theorem admission_not_open (cb : CircuitBreaker) (now : ℚ) (h : cb.state ≠ .open) :
    cb.admission now = ({ cb with total_calls := cb.total_calls + 1 }, true) := by
  have h1 : ({ cb with total_calls := cb.total_calls + 1 } : CircuitBreaker).state
      = cb.state := rfl
  simp [CircuitBreaker.admission, CircuitBreaker.should_attempt_reset, h1, h]

/-- A failed call through a breaker that is not OPEN records the failure. -/
theorem call_fail_not_open (cb : CircuitBreaker) (now tEnd : ℚ) (h : cb.state ≠ .open) :
    cb.call now tEnd false =
      (({ cb with total_calls := cb.total_calls + 1 } : CircuitBreaker).record_failure tEnd,
       .failed) := by
  simp [CircuitBreaker.call, admission_not_open cb now h]

/-- A successful call through a breaker that is not OPEN records the success. -/
theorem call_succ_not_open (cb : CircuitBreaker) (now tEnd : ℚ) (h : cb.state ≠ .open) :
    cb.call now tEnd true =
      (({ cb with total_calls := cb.total_calls + 1 } : CircuitBreaker).record_success,
       .succeeded) := by
  simp [CircuitBreaker.call, admission_not_open cb now h]

/-- Recording a failure in CLOSED strictly below the threshold only bumps
the counters. -/
theorem record_failure_closed_lt (cb : CircuitBreaker) (tEnd : ℚ)
    (h : cb.state = .closed) (hlt : cb.failure_count + 1 < cb.failure_threshold) :
    cb.record_failure tEnd =
      { cb with total_failures := cb.total_failures + 1,
                failure_count := cb.failure_count + 1 } := by
  simp [CircuitBreaker.record_failure, h]
  omega

/-- Recording a failure in CLOSED at or above the threshold opens the
circuit. -/
theorem record_failure_closed_ge (cb : CircuitBreaker) (tEnd : ℚ)
    (h : cb.state = .closed) (hge : cb.failure_threshold ≤ cb.failure_count + 1) :
    cb.record_failure tEnd =
      ({ cb with total_failures := cb.total_failures + 1,
                 failure_count := cb.failure_count + 1 } : CircuitBreaker).transition_to_open
        tEnd := by
  simp [CircuitBreaker.record_failure, h]
  omega

/-- `_should_attempt_reset` is `False` while the timeout has not elapsed. -/
theorem should_attempt_reset_false_of_lt (cb : CircuitBreaker) (now : ℚ)
    (hlt : now - cb.last_failure_time < cb.calculate_timeout) :
    cb.should_attempt_reset now = false := by
  simp [CircuitBreaker.should_attempt_reset, not_le.mpr hlt]

/-- A call while OPEN before the timeout elapses is rejected: only the call
counter moves, and the outcome argument is irrelevant because the wrapped
function never runs. -/
theorem open_reject (cb : CircuitBreaker) (now tEnd : ℚ) (outcome : Bool)
    (h : cb.state = .open)
    (hlt : now - cb.last_failure_time < cb.calculate_timeout) :
    cb.call now tEnd outcome =
      ({ cb with total_calls := cb.total_calls + 1 }, .rejected) := by
  have hsar : ({ cb with total_calls := cb.total_calls + 1 } :
      CircuitBreaker).should_attempt_reset now = false :=
    should_attempt_reset_false_of_lt _ _ (by exact hlt)
  have hst : ({ cb with total_calls := cb.total_calls + 1 } :
      CircuitBreaker).state = .open := by exact h
  simp [CircuitBreaker.call, CircuitBreaker.admission, hsar, hst]

/-- Invariant of a run of consecutive failures from a CLOSED breaker with a
zero failure count: below the threshold the breaker stays CLOSED and
`failure_count` equals the number of failures so far (configuration fields
are untouched). -/
theorem failRun_closed (cb : CircuitBreaker) (ts tf : ℕ → ℚ)
    (hs : cb.state = .closed) (hf : cb.failure_count = 0) :
    ∀ k, k < cb.failure_threshold →
      (cb.failRun ts tf k).state = .closed ∧
      (cb.failRun ts tf k).failure_count = k ∧
      (cb.failRun ts tf k).failure_threshold = cb.failure_threshold := by
  intro k
  induction k with
  | zero => exact fun _ => ⟨hs, hf, rfl⟩
  | succ k ih =>
    intro hk
    obtain ⟨ihs, ihf, iht⟩ := ih (by omega)
    have hne : (cb.failRun ts tf k).state ≠ .open := by rw [ihs]; intro hco; cases hco
    show ((cb.failRun ts tf k).call (ts k) (tf k) false).1.state = .closed ∧
        ((cb.failRun ts tf k).call (ts k) (tf k) false).1.failure_count = k + 1 ∧
        ((cb.failRun ts tf k).call (ts k) (tf k) false).1.failure_threshold =
          cb.failure_threshold
    rw [call_fail_not_open _ _ _ hne,
        record_failure_closed_lt _ _ (by exact ihs)
          (by change (cb.failRun ts tf k).failure_count + 1 <
                (cb.failRun ts tf k).failure_threshold
              rw [ihf, iht]; exact hk)]
    exact ⟨by exact ihs, by exact congrArg (· + 1) ihf, by exact iht⟩

/-- A CLOSED breaker with a zero failure count is OPEN after exactly
`failure_threshold` consecutive failures. -/
theorem failRun_opens (cb : CircuitBreaker) (ts tf : ℕ → ℚ)
    (hs : cb.state = .closed) (hf : cb.failure_count = 0)
    (hN : 1 ≤ cb.failure_threshold) :
    (cb.failRun ts tf cb.failure_threshold).state = .open := by
  obtain ⟨M, hM⟩ : ∃ M, cb.failure_threshold = M + 1 :=
    ⟨cb.failure_threshold - 1, by omega⟩
  obtain ⟨ihs, ihf, iht⟩ := failRun_closed cb ts tf hs hf M (by omega)
  have hne : (cb.failRun ts tf M).state ≠ .open := by rw [ihs]; intro hco; cases hco
  rw [hM]
  show ((cb.failRun ts tf M).call (ts M) (tf M) false).1.state = .open
  rw [call_fail_not_open _ _ _ hne,
      record_failure_closed_ge _ _ (by exact ihs)
        (by change (cb.failRun ts tf M).failure_threshold ≤
              (cb.failRun ts tf M).failure_count + 1
            rw [ihf, iht, hM])]
  rfl

/-- C1: starting CLOSED with `failure_count = 0` and `failure_threshold = N ≥ 1`,
each failed call increments `failure_count` and the breaker is still CLOSED
after any `k < N` consecutive failures; it is OPEN exactly after the `N`-th;
and every call made while OPEN before the computed timeout has elapsed since
`last_failure_time` is rejected (`CircuitBreakerOpenError`) with the wrapped
function never invoked. -/
theorem c1_failure_threshold :
    (∀ (cb : CircuitBreaker) (ts tf : ℕ → ℚ),
      cb.state = .closed → cb.failure_count = 0 → 1 ≤ cb.failure_threshold →
      (∀ k, k < cb.failure_threshold →
        (cb.failRun ts tf k).state = .closed ∧ (cb.failRun ts tf k).failure_count = k) ∧
      (cb.failRun ts tf cb.failure_threshold).state = .open)
    ∧ (∀ (cb : CircuitBreaker) (now tEnd : ℚ) (outcome : Bool),
      cb.state = .open → now - cb.last_failure_time < cb.calculate_timeout →
      (cb.call now tEnd outcome).2 = .rejected ∧
      ((cb.call now tEnd outcome).2).invoked = false) := by
  constructor
  · intro cb ts tf hs hf hN
    exact ⟨fun k hk => ⟨(failRun_closed cb ts tf hs hf k hk).1,
                        (failRun_closed cb ts tf hs hf k hk).2.1⟩,
           failRun_opens cb ts tf hs hf hN⟩
  · intro cb now tEnd outcome h hlt
    rw [open_reject cb now tEnd outcome h hlt]
    exact ⟨rfl, rfl⟩

/-- Witness for `c1_failure_threshold`: a breaker with threshold 3 is still
CLOSED after 2 failures, OPEN after the 3rd, and a concrete OPEN breaker
rejects a call made before its timeout elapses. -/
theorem c1_failure_threshold_witness :
    (((CircuitBreaker.init 3 2 60 600).failRun zeroClock zeroClock 2).state = .closed
      ∧ ((CircuitBreaker.init 3 2 60 600).failRun zeroClock zeroClock 2).failure_count = 2)
    ∧ ((CircuitBreaker.init 3 2 60 600).failRun zeroClock zeroClock 3).state = .open
    ∧ ((CircuitBreaker.mk 5 2 60 600 .open 5 0 100 1 6 5 0).call 110 110 true).2 = .rejected :=
  ⟨(c1_failure_threshold.1 (CircuitBreaker.init 3 2 60 600) zeroClock zeroClock
      rfl rfl (by decide)).1 2 (by decide),
   (c1_failure_threshold.1 (CircuitBreaker.init 3 2 60 600) zeroClock zeroClock
      rfl rfl (by decide)).2,
   (c1_failure_threshold.2 (CircuitBreaker.mk 5 2 60 600 .open 5 0 100 1 6 5 0)
      110 110 true rfl (by norm_num [CircuitBreaker.calculate_timeout,
        EXPONENTIAL_BACKOFF_BASE])).1⟩

/-- C9: a call rejected because the circuit is OPEN and the timeout has not
elapsed increments `total_calls` only; `total_failures`, `total_successes`,
`failure_count`, `open_count`, `last_failure_time` and the OPEN state are
all unchanged, and the wrapped function is not invoked. -/
theorem c9_rejected_call_frame (cb : CircuitBreaker) (now tEnd : ℚ) (outcome : Bool)
    (h : cb.state = .open)
    (hlt : now - cb.last_failure_time < cb.calculate_timeout) :
    (cb.call now tEnd outcome).2 = .rejected ∧
    ((cb.call now tEnd outcome).2).invoked = false ∧
    (cb.call now tEnd outcome).1.total_calls = cb.total_calls + 1 ∧
    (cb.call now tEnd outcome).1.total_failures = cb.total_failures ∧
    (cb.call now tEnd outcome).1.total_successes = cb.total_successes ∧
    (cb.call now tEnd outcome).1.failure_count = cb.failure_count ∧
    (cb.call now tEnd outcome).1.open_count = cb.open_count ∧
    (cb.call now tEnd outcome).1.last_failure_time = cb.last_failure_time ∧
    (cb.call now tEnd outcome).1.state = .open := by
  rw [open_reject cb now tEnd outcome h hlt]
  exact ⟨rfl, rfl, rfl, rfl, rfl, rfl, rfl, rfl, h⟩

/-- Witness for `c9_rejected_call_frame` at a concrete OPEN breaker. -/
theorem c9_rejected_call_frame_witness :
    ((CircuitBreaker.mk 5 2 60 600 .open 2 0 1000 1 7 4 3).call 1010 1010 false).2
      = .rejected ∧
    ((CircuitBreaker.mk 5 2 60 600 .open 2 0 1000 1 7 4 3).call 1010 1010 false).1.total_calls
      = 8 :=
  ⟨((c9_rejected_call_frame (CircuitBreaker.mk 5 2 60 600 .open 2 0 1000 1 7 4 3)
      1010 1010 false rfl (by norm_num [CircuitBreaker.calculate_timeout,
        EXPONENTIAL_BACKOFF_BASE]))).1,
   ((c9_rejected_call_frame (CircuitBreaker.mk 5 2 60 600 .open 2 0 1000 1 7 4 3)
      1010 1010 false rfl (by norm_num [CircuitBreaker.calculate_timeout,
        EXPONENTIAL_BACKOFF_BASE]))).2.2.1⟩

/-- `_should_attempt_reset` is `True` once OPEN and the timeout elapsed. -/
theorem should_attempt_reset_true_of_ge (cb : CircuitBreaker) (now : ℚ)
    (h : cb.state = .open) (hge : cb.calculate_timeout ≤ now - cb.last_failure_time) :
    cb.should_attempt_reset now = true := by
  simp [CircuitBreaker.should_attempt_reset, h, hge]

/-- Admission while OPEN once the timeout has elapsed: the breaker moves to
HALF_OPEN (with `success_count` reset) and the call is let through. -/
theorem admission_open_elapsed (cb : CircuitBreaker) (now : ℚ)
    (h : cb.state = .open) (hge : cb.calculate_timeout ≤ now - cb.last_failure_time) :
    cb.admission now =
      (({ cb with total_calls := cb.total_calls + 1 } :
          CircuitBreaker).transition_to_half_open, true) := by
  have hsar : ({ cb with total_calls := cb.total_calls + 1 } :
      CircuitBreaker).should_attempt_reset now = true :=
    should_attempt_reset_true_of_ge _ _ (by exact h) (by exact hge)
  simp [CircuitBreaker.admission, hsar, CircuitBreaker.transition_to_half_open]

/-- Recording a success in HALF_OPEN strictly below the success threshold
only bumps the counters. -/
theorem record_success_half_open_lt (cb : CircuitBreaker)
    (h : cb.state = .half_open) (hlt : cb.success_count + 1 < cb.success_threshold) :
    cb.record_success =
      { cb with total_successes := cb.total_successes + 1,
                success_count := cb.success_count + 1 } := by
  simp [CircuitBreaker.record_success, h]
  omega

/-- Recording a success in HALF_OPEN at or above the success threshold
closes the circuit. -/
theorem record_success_half_open_ge (cb : CircuitBreaker)
    (h : cb.state = .half_open) (hge : cb.success_threshold ≤ cb.success_count + 1) :
    cb.record_success =
      ({ cb with total_successes := cb.total_successes + 1,
                 success_count := cb.success_count + 1 } :
        CircuitBreaker).transition_to_closed := by
  simp [CircuitBreaker.record_success, h]
  omega

/-- Recording a failure in HALF_OPEN immediately reopens the circuit. -/
theorem record_failure_half_open (cb : CircuitBreaker) (tEnd : ℚ)
    (h : cb.state = .half_open) :
    cb.record_failure tEnd =
      ({ cb with total_failures := cb.total_failures + 1 } :
        CircuitBreaker).transition_to_open tEnd := by
  simp [CircuitBreaker.record_failure, h]

/-- Invariant of a run of consecutive successes from a HALF_OPEN breaker
with a zero success count: below the success threshold the breaker stays
HALF_OPEN and `success_count` counts the successes. -/
theorem succRun_half_open (cb : CircuitBreaker) (ts tf : ℕ → ℚ)
    (hs : cb.state = .half_open) (h0 : cb.success_count = 0) :
    ∀ k, k < cb.success_threshold →
      (cb.succRun ts tf k).state = .half_open ∧
      (cb.succRun ts tf k).success_count = k ∧
      (cb.succRun ts tf k).success_threshold = cb.success_threshold := by
  intro k
  induction k with
  | zero => exact fun _ => ⟨hs, h0, rfl⟩
  | succ k ih =>
    intro hk
    obtain ⟨ihs, ihc, iht⟩ := ih (by omega)
    have hne : (cb.succRun ts tf k).state ≠ .open := by rw [ihs]; intro hco; cases hco
    show ((cb.succRun ts tf k).call (ts k) (tf k) true).1.state = .half_open ∧
        ((cb.succRun ts tf k).call (ts k) (tf k) true).1.success_count = k + 1 ∧
        ((cb.succRun ts tf k).call (ts k) (tf k) true).1.success_threshold =
          cb.success_threshold
    rw [call_succ_not_open _ _ _ hne,
        record_success_half_open_lt _ (by exact ihs)
          (by change (cb.succRun ts tf k).success_count + 1 <
                (cb.succRun ts tf k).success_threshold
              rw [ihc, iht]; exact hk)]
    exact ⟨by exact ihs, by exact congrArg (· + 1) ihc, by exact iht⟩

/-- C5: once the computed timeout `min(base_timeout * 2^open_count,
max_timeout)` has elapsed since `last_failure_time`, the next call moves the
OPEN breaker to HALF_OPEN with `success_count` reset and is let through; in
HALF_OPEN, `success_threshold` consecutive successes close the circuit,
resetting `failure_count`, `success_count` and `open_count` to 0; and any
single failure in HALF_OPEN reopens the circuit and increments
`open_count`. -/
theorem c5_recovery :
    (∀ (cb : CircuitBreaker) (now : ℚ),
      cb.state = .open → cb.calculate_timeout ≤ now - cb.last_failure_time →
      (cb.admission now).2 = true ∧ (cb.admission now).1.state = .half_open ∧
      (cb.admission now).1.success_count = 0)
    ∧ (∀ (cb : CircuitBreaker) (ts tf : ℕ → ℚ),
      cb.state = .half_open → cb.success_count = 0 → 1 ≤ cb.success_threshold →
      (∀ k, k < cb.success_threshold →
        (cb.succRun ts tf k).state = .half_open ∧
        (cb.succRun ts tf k).success_count = k) ∧
      ((cb.succRun ts tf cb.success_threshold).state = .closed ∧
       (cb.succRun ts tf cb.success_threshold).failure_count = 0 ∧
       (cb.succRun ts tf cb.success_threshold).success_count = 0 ∧
       (cb.succRun ts tf cb.success_threshold).open_count = 0))
    ∧ (∀ (cb : CircuitBreaker) (now tEnd : ℚ),
      cb.state = .half_open →
      (cb.call now tEnd false).1.state = .open ∧
      (cb.call now tEnd false).1.open_count = cb.open_count + 1 ∧
      (cb.call now tEnd false).1.last_failure_time = tEnd) := by
  refine ⟨?_, ?_, ?_⟩
  · intro cb now h hge
    rw [admission_open_elapsed cb now h hge]
    exact ⟨rfl, rfl, rfl⟩
  · intro cb ts tf hs h0 hS
    refine ⟨fun k hk => ⟨(succRun_half_open cb ts tf hs h0 k hk).1,
                         (succRun_half_open cb ts tf hs h0 k hk).2.1⟩, ?_⟩
    obtain ⟨M, hM⟩ : ∃ M, cb.success_threshold = M + 1 :=
      ⟨cb.success_threshold - 1, by omega⟩
    obtain ⟨ihs, ihc, iht⟩ := succRun_half_open cb ts tf hs h0 M (by omega)
    have hne : (cb.succRun ts tf M).state ≠ .open := by rw [ihs]; intro hco; cases hco
    rw [hM]
    show ((cb.succRun ts tf M).call (ts M) (tf M) true).1.state = .closed ∧
        ((cb.succRun ts tf M).call (ts M) (tf M) true).1.failure_count = 0 ∧
        ((cb.succRun ts tf M).call (ts M) (tf M) true).1.success_count = 0 ∧
        ((cb.succRun ts tf M).call (ts M) (tf M) true).1.open_count = 0
    rw [call_succ_not_open _ _ _ hne,
        record_success_half_open_ge _ (by exact ihs)
          (by change (cb.succRun ts tf M).success_threshold ≤
                (cb.succRun ts tf M).success_count + 1
              rw [ihc, iht, hM])]
    exact ⟨rfl, rfl, rfl, rfl⟩
  · intro cb now tEnd hs
    have hne : cb.state ≠ .open := by rw [hs]; intro hco; cases hco
    rw [call_fail_not_open _ _ _ hne,
        record_failure_half_open _ _ (by exact hs)]
    exact ⟨rfl, rfl, rfl⟩

/-- Witness for `c5_recovery` on concrete breakers: an OPEN breaker with
`open_count = 1` and 200 s elapsed (timeout 120 s) is admitted into
HALF_OPEN; a HALF_OPEN breaker with `success_threshold = 2` closes after 2
successes with counters reset; a failure in HALF_OPEN reopens with
`open_count` bumped. -/
theorem c5_recovery_witness :
    (((CircuitBreaker.mk 5 2 60 600 .open 5 0 100 1 6 5 0).admission 300).2 = true
      ∧ ((CircuitBreaker.mk 5 2 60 600 .open 5 0 100 1 6 5 0).admission 300).1.state = .half_open)
    ∧ ((CircuitBreaker.mk 3 2 60 600 .half_open 1 0 50 2 9 4 5).succRun
        zeroClock zeroClock 2).state = .closed
    ∧ ((CircuitBreaker.mk 3 2 60 600 .half_open 1 0 50 2 9 4 5).succRun
        zeroClock zeroClock 2).open_count = 0
    ∧ (((CircuitBreaker.mk 3 2 60 600 .half_open 1 0 50 2 9 4 5).call 60 60 false).1.state
        = .open)
    ∧ (((CircuitBreaker.mk 3 2 60 600 .half_open 1 0 50 2 9 4 5).call 60 60 false).1.open_count
        = 3) :=
  ⟨⟨(c5_recovery.1 (CircuitBreaker.mk 5 2 60 600 .open 5 0 100 1 6 5 0) 300 rfl
      (by norm_num [CircuitBreaker.calculate_timeout, EXPONENTIAL_BACKOFF_BASE])).1,
    (c5_recovery.1 (CircuitBreaker.mk 5 2 60 600 .open 5 0 100 1 6 5 0) 300 rfl
      (by norm_num [CircuitBreaker.calculate_timeout, EXPONENTIAL_BACKOFF_BASE])).2.1⟩,
   (c5_recovery.2.1 (CircuitBreaker.mk 3 2 60 600 .half_open 1 0 50 2 9 4 5)
      zeroClock zeroClock rfl rfl (by decide)).2.1,
   (c5_recovery.2.1 (CircuitBreaker.mk 3 2 60 600 .half_open 1 0 50 2 9 4 5)
      zeroClock zeroClock rfl rfl (by decide)).2.2.2.2,
   (c5_recovery.2.2 (CircuitBreaker.mk 3 2 60 600 .half_open 1 0 50 2 9 4 5)
      60 60 rfl).1,
   (c5_recovery.2.2 (CircuitBreaker.mk 3 2 60 600 .half_open 1 0 50 2 9 4 5)
      60 60 rfl).2.1⟩

/-- Characterization of `verify_signature` as nested guards around a
signature comparison (definitional). -/
theorem verify_signature_eq (rs : RequestSigner) (now : Int) (m u sig : String)
    (t : Int) (b : Option PyDict) :
    rs.verify_signature now m u sig t b =
      (if now - t > rs.timestampWindow then false
       else if now - t < -CLOCK_SKEW_TOLERANCE_SECONDS then false
       else sig == hmacSha256Hex rs.signingKey (canonicalMessage m u b t)) := rfl

/-- The signature field produced by `sign_request` (definitional). -/
theorem sign_request_signature (rs : RequestSigner) (m u : String)
    (b : Option PyDict) (t : Int) :
    (rs.sign_request m u b t).xSignature =
      hmacSha256Hex rs.signingKey (canonicalMessage m u b t) := rfl

/-- Known-answer check: SHA-256 of the empty message (FIPS test vector). -/
theorem sha256_empty_vector :
    bytesToHex (sha256 []) =
      "e3b0c44298fc1c149afbf4c8996fb92427ae41e4649b934ca495991b7852b855" := by
  decide

/-- Known-answer check: SHA-256 of "abc" (FIPS 180-4 test vector). -/
theorem sha256_abc_vector :
    bytesToHex (sha256 (strUtf8 "abc")) =
      "ba7816bf8f01cfea414140de5dae2223b00361a396177a9cb410ff61f20015ad" := by
  decide

/-- Known-answer check: HMAC-SHA256 test case 2 of RFC 4231. -/
theorem hmac_rfc4231_case2 :
    hmacSha256Hex "Jefe" "what do ya want for nothing?" =
      "5bdcc146bf60754e6a042426089575c75a003f089d2739839dec58b964ec3843" := by
  decide

/-- C2, counterexample.  The claim asserts that any modification of the body
after signing makes verification fail.  It does not: a request signed with
body `None` still verifies against the *modified* body `{}` (and vice versa),
because `json.dumps(body, sort_keys=True) if body else ''` serializes both
falsy bodies to the empty string, so the canonical message is unchanged. -/
theorem c2_body_tamper_counterexample :
    ((RequestSigner.mk "test-signing-key" 300).verify_signature 1000
        "GET" "https://api.safetyculture.io/assets/search"
        ((RequestSigner.mk "test-signing-key" 300).sign_request
          "GET" "https://api.safetyculture.io/assets/search" none 1000).xSignature
        1000 (some [])) = true
    ∧ (some ([] : PyDict)) ≠ (none : Option PyDict) := by
  constructor
  · have hmsg : canonicalMessage "GET" "https://api.safetyculture.io/assets/search" (some []) 1000 =
        canonicalMessage "GET" "https://api.safetyculture.io/assets/search" none 1000 := by
      simp [canonicalMessage, bodyStr, pyTruthy]
    simp only [RequestSigner.verify_signature, RequestSigner.sign_request, hmsg]
    norm_num [CLOCK_SKEW_TOLERANCE_SECONDS]
  · intro h
    exact Option.noConfusion h

/-- C2, amended.  (1) For every method, URL, body and timestamp whose age at
verification time is within the window and not more than the clock-skew
tolerance in the future, verification of the produced signature returns
`True`.  (2) A modification of the URL or body is detected — verification
returns `False` — whenever it changes the HMAC of the canonical message; a
modification that leaves the canonical serialization unchanged (such as
swapping a `None` body for the falsy `{}`) is not detected.  (3) A timestamp
older than the window, or more than the clock-skew tolerance in the future,
fails verification even when the signature was correctly computed for that
timestamp. -/
theorem c2_sign_verify_roundtrip_amended :
    (∀ (rs : RequestSigner) (now : Int) (m u : String) (b : Option PyDict) (t : Int),
      now - t ≤ rs.timestampWindow → -CLOCK_SKEW_TOLERANCE_SECONDS ≤ now - t →
      rs.verify_signature now m u ((rs.sign_request m u b t).xSignature) t b = true)
    ∧ (∀ (rs : RequestSigner) (now : Int) (m u u' : String) (b b' : Option PyDict) (t : Int),
      hmacSha256Hex rs.signingKey (canonicalMessage m u' b' t) ≠
        hmacSha256Hex rs.signingKey (canonicalMessage m u b t) →
      rs.verify_signature now m u' ((rs.sign_request m u b t).xSignature) t b' = false)
    ∧ (∀ (rs : RequestSigner) (now : Int) (m u : String) (b : Option PyDict) (t : Int),
      (rs.timestampWindow < now - t ∨ now - t < -CLOCK_SKEW_TOLERANCE_SECONDS) →
      rs.verify_signature now m u ((rs.sign_request m u b t).xSignature) t b = false) := by
  refine ⟨?_, ?_, ?_⟩
  · intro rs now m u b t h1 h2
    rw [verify_signature_eq, sign_request_signature,
        if_neg (by omega), if_neg (by omega)]
    exact beq_self_eq_true _
  · intro rs now m u u' b b' t hne
    rw [verify_signature_eq, sign_request_signature]
    by_cases hw : now - t > rs.timestampWindow
    · rw [if_pos hw]
    · rw [if_neg hw]
      by_cases hs : now - t < -CLOCK_SKEW_TOLERANCE_SECONDS
      · rw [if_pos hs]
      · rw [if_neg hs]
        exact beq_eq_false_iff_ne.mpr (Ne.symm hne)
  · intro rs now m u b t h
    rw [verify_signature_eq, sign_request_signature]
    rcases h with h | h
    · rw [if_pos (by omega)]
    · by_cases hw : now - t > rs.timestampWindow
      · rw [if_pos hw]
      · rw [if_neg hw, if_pos (by omega)]

/-- Witness for `c2_sign_verify_roundtrip_amended`: all three parts applied
at concrete inputs, with the hypotheses discharged by computation (the
modified-URL HMAC inequality is evaluated concretely). -/
theorem c2_sign_verify_roundtrip_amended_witness :
    ((RequestSigner.mk "k" 300).verify_signature 100 "G" "u"
      (((RequestSigner.mk "k" 300).sign_request "G" "u" none 0).xSignature) 0 none = true)
    ∧ ((RequestSigner.mk "k" 300).verify_signature 100 "G" "v"
      (((RequestSigner.mk "k" 300).sign_request "G" "u" none 0).xSignature) 0 none = false)
    ∧ ((RequestSigner.mk "k" 300).verify_signature 1000 "G" "u"
      (((RequestSigner.mk "k" 300).sign_request "G" "u" none 0).xSignature) 0 none = false) :=
  ⟨c2_sign_verify_roundtrip_amended.1 (RequestSigner.mk "k" 300) 100 "G" "u" none 0
      (by decide) (by decide),
   c2_sign_verify_roundtrip_amended.2.1 (RequestSigner.mk "k" 300) 100 "G" "u" "v" none none 0
      (by rw [show canonicalMessage "G" "v" none 0 = "G|v||0" by rfl,
              show canonicalMessage "G" "u" none 0 = "G|u||0" by rfl]
          decide),
   c2_sign_verify_roundtrip_amended.2.2 (RequestSigner.mk "k" 300) 1000 "G" "u" none 0
      (Or.inl (by decide))⟩

/-- Refilling preserves the bucket invariant when the clock is monotone and
the rate nonnegative. -/
theorem refill_preserves_inv (st : TokenBucketRateLimiter) (now : ℚ)
    (hr : 0 ≤ st.rate) (hinv : TBInv st) (hm : st.last_update ≤ now) :
    TBInv (st.refill_tokens now) := by
  obtain ⟨h0, hb⟩ := hinv
  constructor
  · exact le_min (le_trans h0 hb)
      (by nlinarith [mul_nonneg (sub_nonneg.mpr hm) hr])
  · exact min_le_left _ _

/-- The refill leaves `last_update` at the reading it was given. -/
theorem refill_last_update (st : TokenBucketRateLimiter) (now : ℚ) :
    (st.refill_tokens now).last_update = now := rfl

/-- The waiting loop preserves the bucket invariant for nonnegative requests
along any monotone run of clock readings. -/
theorem acquireLoop_preserves_inv (n : ℤ) (waitStart : ℚ) (hn : 0 ≤ n) :
    ∀ (clock : List (ℚ × ℚ)) (st : TokenBucketRateLimiter),
      0 ≤ st.rate → TBInv st →
      List.Chain (· ≤ ·) st.last_update (clock.map Prod.fst) →
      TBInv (st.acquireLoop n waitStart clock).1 := by
  intro clock
  induction clock with
  | nil => exact fun st _ hinv _ => hinv
  | cons p rest ih =>
    intro st hr hinv hchain
    obtain ⟨hhd, htl⟩ := List.chain_cons.mp (by simpa using hchain)
    have hinv1 : TBInv (st.refill_tokens p.1) := refill_preserves_inv st p.1 hr hinv hhd
    show TBInv (TokenBucketRateLimiter.acquireLoop _ n waitStart ((p.1, p.2) :: rest)).1
    rw [TokenBucketRateLimiter.acquireLoop]
    by_cases htok : (n : ℚ) ≤ (st.refill_tokens p.1).tokens
    · rw [if_pos (by exact htok)]
      have hn0 : (0 : ℚ) ≤ (n : ℚ) := by exact_mod_cast hn
      constructor
      · change (0 : ℚ) ≤ (st.refill_tokens p.1).tokens - (n : ℚ)
        linarith
      · change (st.refill_tokens p.1).tokens - (n : ℚ) ≤
          ((st.refill_tokens p.1).burst : ℚ)
        linarith [hinv1.2]
    · rw [if_neg (by exact htok)]
      by_cases hw : (st.refill_tokens p.1).max_wait ≤ p.2 - waitStart
      · rw [if_pos (by exact hw)]; exact hinv1
      · rw [if_neg (by exact hw)]
        exact ih (st.refill_tokens p.1) (by exact hr) hinv1
          (by rw [refill_last_update]; exact htl)

/-- C6: every operation of `TokenBucketRateLimiter` preserves
`0 ≤ tokens ≤ burst` — refills cap at burst, tokens are deducted only when
at least the (nonnegative) requested amount is available, and `reset`
restores full capacity — so the token count never goes negative and never
exceeds burst.  The hypotheses record the operating conditions: a
nonnegative rate and request size and a monotone clock. -/
theorem c6_bucket_invariant :
    (∀ (st : TokenBucketRateLimiter) (now : ℚ),
      0 ≤ st.rate → TBInv st → st.last_update ≤ now →
      TBInv (st.refill_tokens now))
    ∧ (∀ (st : TokenBucketRateLimiter) (n : ℤ) (now : ℚ),
      0 ≤ st.rate → 0 ≤ n → TBInv st → st.last_update ≤ now →
      TBInv (st.try_acquire n now).1)
    ∧ (∀ (st : TokenBucketRateLimiter) (n : ℤ) (waitStart : ℚ) (clock : List (ℚ × ℚ)),
      0 ≤ st.rate → 0 ≤ n → TBInv st →
      List.Chain (· ≤ ·) st.last_update (clock.map Prod.fst) →
      TBInv (st.acquire n waitStart clock).1)
    ∧ (∀ (st : TokenBucketRateLimiter) (now : ℚ),
      0 ≤ st.burst → TBInv (st.reset now)) := by
  refine ⟨refill_preserves_inv, ?_, ?_, ?_⟩
  · intro st n now hr hn hinv hm
    have hinv1 := refill_preserves_inv st now hr hinv hm
    have hn0 : (0 : ℚ) ≤ (n : ℚ) := by exact_mod_cast hn
    unfold TokenBucketRateLimiter.try_acquire
    by_cases htok : (n : ℚ) ≤ (st.refill_tokens now).tokens
    · rw [if_pos (by exact htok)]
      constructor
      · change (0 : ℚ) ≤ (st.refill_tokens now).tokens - (n : ℚ)
        linarith
      · change (st.refill_tokens now).tokens - (n : ℚ) ≤
          ((st.refill_tokens now).burst : ℚ)
        linarith [hinv1.2]
    · rw [if_neg (by exact htok)]
      exact hinv1
  · intro st n waitStart clock hr hn hinv hchain
    unfold TokenBucketRateLimiter.acquire
    by_cases hb : st.burst < n
    · rw [if_pos hb]; exact hinv
    · rw [if_neg hb]; exact acquireLoop_preserves_inv n waitStart hn clock st hr hinv hchain
  · intro st now hb
    constructor
    · change (0 : ℚ) ≤ (st.burst : ℚ)
      exact_mod_cast hb
    · change (st.burst : ℚ) ≤ (st.burst : ℚ)
      exact le_refl _

/-- Witness for `c6_bucket_invariant` on a concrete bucket
(`rate 10, burst 20, tokens 20`) with a monotone two-reading clock. -/
theorem c6_bucket_invariant_witness :
    TBInv ((TokenBucketRateLimiter.mk 10 20 30 20 0).refill_tokens 1)
    ∧ TBInv ((TokenBucketRateLimiter.mk 10 20 30 20 0).try_acquire 1 1).1
    ∧ TBInv ((TokenBucketRateLimiter.mk 10 20 30 20 0).acquire 1 0 [(1, 1), (2, 2)]).1
    ∧ TBInv ((TokenBucketRateLimiter.mk 10 20 30 20 0).reset 5) :=
  ⟨c6_bucket_invariant.1 (TokenBucketRateLimiter.mk 10 20 30 20 0) 1
      (by norm_num) (by exact ⟨by norm_num, by norm_num⟩) (by norm_num),
   c6_bucket_invariant.2.1 (TokenBucketRateLimiter.mk 10 20 30 20 0) 1 1
      (by norm_num) (by norm_num) (by exact ⟨by norm_num, by norm_num⟩) (by norm_num),
   c6_bucket_invariant.2.2.1 (TokenBucketRateLimiter.mk 10 20 30 20 0) 1 0 [(1, 1), (2, 2)]
      (by norm_num) (by norm_num) (by exact ⟨by norm_num, by norm_num⟩)
      (by refine List.Chain.cons (by norm_num) (List.Chain.cons (by norm_num) ?_)
          exact List.Chain.nil),
   c6_bucket_invariant.2.2.2 (TokenBucketRateLimiter.mk 10 20 30 20 0) 5 (by norm_num)⟩

/-- C4, counterexample.  The claim says any single successful token
acquisition resets `current_backoff` to `initial_backoff` and
`consecutive_failures` to 0.  It fails on the retry path: when the first
bucket attempt hits the rate limit and the retry then succeeds, the call
returns successfully but leaves `current_backoff` at its increased value
and `consecutive_failures` at 1 — only the initial-attempt success branch
resets the backoff state. -/
theorem c4_retry_success_counterexample :
    ((ExponentialBackoffRateLimiter.mk (TokenBucketRateLimiter.mk 1 1 30 0 0)
        1 60 2 1 0).acquire 1 0 [(0, 31)] 31 [(31, 31)]).2 = .ok
    ∧ ((ExponentialBackoffRateLimiter.mk (TokenBucketRateLimiter.mk 1 1 30 0 0)
        1 60 2 1 0).acquire 1 0 [(0, 31)] 31 [(31, 31)]).1.current_backoff = 2
    ∧ ((ExponentialBackoffRateLimiter.mk (TokenBucketRateLimiter.mk 1 1 30 0 0)
        1 60 2 1 0).acquire 1 0 [(0, 31)] 31 [(31, 31)]).1.consecutive_failures = 1
    ∧ (2 : ℚ) ≠ (ExponentialBackoffRateLimiter.mk (TokenBucketRateLimiter.mk 1 1 30 0 0)
        1 60 2 1 0).initial_backoff := by
  have h1 : (TokenBucketRateLimiter.mk 1 1 30 0 0).acquire 1 0 [(0, 31)] =
      (TokenBucketRateLimiter.mk 1 1 30 0 0, .rateLimitError) := by
    norm_num [TokenBucketRateLimiter.acquire, TokenBucketRateLimiter.acquireLoop,
      TokenBucketRateLimiter.refill_tokens, TokenBucketRateLimiter.mk.injEq, min_def]
  have h2 : (TokenBucketRateLimiter.mk 1 1 30 0 0).acquire 1 31 [(31, 31)] =
      (TokenBucketRateLimiter.mk 1 1 30 0 31, .ok) := by
    norm_num [TokenBucketRateLimiter.acquire, TokenBucketRateLimiter.acquireLoop,
      TokenBucketRateLimiter.refill_tokens, TokenBucketRateLimiter.mk.injEq, min_def]
  refine ⟨?_, ?_, ?_, by norm_num⟩
  all_goals simp only [ExponentialBackoffRateLimiter.acquire, h1, h2]
  all_goals norm_num [min_def]

/-- C4, amended.  A *first-attempt* success resets `current_backoff` to
`initial_backoff` and `consecutive_failures` to 0; each rate-limit failure
increments `consecutive_failures` and multiplies `current_backoff` by
`backoff_multiplier`, capping at `max_backoff` (a strict increase while the
backoff is positive, the multiplier exceeds 1 and the cap is not yet
reached); and a success on the retry after a failure keeps the increased
backoff and the incremented failure counter. -/
theorem c4_backoff_amended :
    (∀ (st : ExponentialBackoffRateLimiter) (n : ℤ) (ws1 : ℚ) (clock1 : List (ℚ × ℚ))
       (ws2 : ℚ) (clock2 : List (ℚ × ℚ)),
      (st.bucket.acquire n ws1 clock1).2 = .ok →
      (st.acquire n ws1 clock1 ws2 clock2).2 = .ok ∧
      (st.acquire n ws1 clock1 ws2 clock2).1.current_backoff = st.initial_backoff ∧
      (st.acquire n ws1 clock1 ws2 clock2).1.consecutive_failures = 0)
    ∧ (∀ (st : ExponentialBackoffRateLimiter) (n : ℤ) (ws1 : ℚ) (clock1 : List (ℚ × ℚ))
       (ws2 : ℚ) (clock2 : List (ℚ × ℚ)),
      (st.bucket.acquire n ws1 clock1).2 = .rateLimitError →
      (st.acquire n ws1 clock1 ws2 clock2).1.consecutive_failures =
        st.consecutive_failures + 1 ∧
      (st.acquire n ws1 clock1 ws2 clock2).1.current_backoff =
        min st.max_backoff (st.current_backoff * st.backoff_multiplier) ∧
      (st.acquire n ws1 clock1 ws2 clock2).1.current_backoff ≤ st.max_backoff ∧
      (0 < st.current_backoff → 1 < st.backoff_multiplier →
       st.current_backoff < st.max_backoff →
       st.current_backoff < (st.acquire n ws1 clock1 ws2 clock2).1.current_backoff)) := by
  constructor
  · intro st n ws1 clock1 ws2 clock2 hok
    unfold ExponentialBackoffRateLimiter.acquire
    rcases hres : st.bucket.acquire n ws1 clock1 with ⟨b1, r⟩
    have : r = .ok := by rw [hres] at hok; exact hok
    subst this
    exact ⟨rfl, rfl, rfl⟩
  · intro st n ws1 clock1 ws2 clock2 hrl
    unfold ExponentialBackoffRateLimiter.acquire
    rcases hres : st.bucket.acquire n ws1 clock1 with ⟨b1, r⟩
    have : r = .rateLimitError := by rw [hres] at hrl; exact hrl
    subst this
    rcases hres2 : (ExponentialBackoffRateLimiter.mk b1 st.initial_backoff st.max_backoff
        st.backoff_multiplier st.current_backoff
        (st.consecutive_failures + 1)).bucket.acquire n ws2 clock2 with ⟨b2, r2⟩
    refine ⟨?_, ?_, ?_, ?_⟩
    · simp only [hres2]
    · simp only [hres2]
    · simp only [hres2]; exact min_le_left _ _
    · intro hpos hmul hcap
      simp only [hres2]
      have : st.current_backoff < st.current_backoff * st.backoff_multiplier := by
        nlinarith
      exact lt_min hcap this

/-- Witness for `c4_backoff_amended`: a full bucket resets the backoff on a
first-attempt success, and an empty slow bucket that fails the first
attempt leaves the increased backoff in place. -/
theorem c4_backoff_amended_witness :
    (((ExponentialBackoffRateLimiter.mk (TokenBucketRateLimiter.mk 10 20 30 20 0)
        1 60 2 8 3).acquire 1 0 [(0, 0)] 0 []).2 = .ok
      ∧ ((ExponentialBackoffRateLimiter.mk (TokenBucketRateLimiter.mk 10 20 30 20 0)
        1 60 2 8 3).acquire 1 0 [(0, 0)] 0 []).1.current_backoff = 1)
    ∧ ((ExponentialBackoffRateLimiter.mk (TokenBucketRateLimiter.mk 1 1 30 0 0)
        1 60 2 1 0).acquire 1 0 [(0, 31)] 31 [(31, 31)]).1.consecutive_failures = 0 + 1 :=
  ⟨⟨((c4_backoff_amended.1 (ExponentialBackoffRateLimiter.mk
        (TokenBucketRateLimiter.mk 10 20 30 20 0) 1 60 2 8 3) 1 0 [(0, 0)] 0 []
        (by norm_num [TokenBucketRateLimiter.acquire, TokenBucketRateLimiter.acquireLoop,
              TokenBucketRateLimiter.refill_tokens, min_def]))).1,
    ((c4_backoff_amended.1 (ExponentialBackoffRateLimiter.mk
        (TokenBucketRateLimiter.mk 10 20 30 20 0) 1 60 2 8 3) 1 0 [(0, 0)] 0 []
        (by norm_num [TokenBucketRateLimiter.acquire, TokenBucketRateLimiter.acquireLoop,
              TokenBucketRateLimiter.refill_tokens, min_def]))).2.1⟩,
   ((c4_backoff_amended.2 (ExponentialBackoffRateLimiter.mk
        (TokenBucketRateLimiter.mk 1 1 30 0 0) 1 60 2 1 0) 1 0 [(0, 31)] 31 [(31, 31)]
        (by norm_num [TokenBucketRateLimiter.acquire, TokenBucketRateLimiter.acquireLoop,
              TokenBucketRateLimiter.refill_tokens, min_def]))).1⟩

/-- With an invalid endpoint, a successfully admitted request still reaches
the validator only *after* the rate-limit acquisition: the pipeline returns
the validation error with zero HTTP attempts and the post-acquisition
limiter state. -/
theorem internal_endpoint_error (cfg : ApiConfig) (responses : ℕ → HttpResult)
    (acquires : ℕ → AcquireIn) (endpoint : String)
    (params : List (String × ParamValue)) (st : ExponentialBackoffRateLimiter)
    (m : String)
    (hep : InputValidator.validate_endpoint endpoint = .error m)
    (hok : (st.acquire 1 (acquires 0).ws1 (acquires 0).clock1
      (acquires 0).ws2 (acquires 0).clock2).2 = .ok) :
    makeRequestInternal cfg responses acquires endpoint params st 0 =
      ((st.acquire 1 (acquires 0).ws1 (acquires 0).clock1
        (acquires 0).ws2 (acquires 0).clock2).1, 0, .error (.validation m)) := by
  unfold makeRequestInternal
  rw [Nat.sub_zero]
  rcases hacq : st.acquire 1 (acquires 0).ws1 (acquires 0).clock1
      (acquires 0).ws2 (acquires 0).clock2 with ⟨st1, r⟩
  rw [hacq] at hok
  simp only at hok
  subst hok
  simp only [makeRequestInternalFuel, hacq, hep]

/-- With an invalid endpoint every call — whatever the limiter does — ends
in an error without any HTTP attempt. -/
theorem internal_endpoint_invalid_always_err (cfg : ApiConfig)
    (responses : ℕ → HttpResult) (acquires : ℕ → AcquireIn) (endpoint : String)
    (params : List (String × ParamValue)) (st : ExponentialBackoffRateLimiter)
    (m : String)
    (hep : InputValidator.validate_endpoint endpoint = .error m) :
    (makeRequestInternal cfg responses acquires endpoint params st 0).2.1 = 0 ∧
    ∃ e, (makeRequestInternal cfg responses acquires endpoint params st 0).2.2 =
      .error e := by
  unfold makeRequestInternal
  rw [Nat.sub_zero]
  rcases hacq : st.acquire 1 (acquires 0).ws1 (acquires 0).clock1
      (acquires 0).ws2 (acquires 0).clock2 with ⟨st1, r⟩
  cases r <;> simp only [makeRequestInternalFuel, hacq, hep] <;> exact ⟨trivial, _, rfl⟩

/-- When the pipeline errors with no HTTP attempt, the guarded request
records a breaker failure exactly as a failed `call` does, and still
performs no HTTP attempt. -/
theorem makeRequest_breaker_on_error (cb : CircuitBreaker) (now tEnd : ℚ)
    (cfg : ApiConfig) (responses : ℕ → HttpResult) (acquires : ℕ → AcquireIn)
    (endpoint : String) (params : List (String × ParamValue))
    (st : ExponentialBackoffRateLimiter)
    (hk : (makeRequestInternal cfg responses acquires endpoint params st 0).2.1 = 0)
    (herr : ∃ e, (makeRequestInternal cfg responses acquires endpoint params st 0).2.2 =
      .error e) :
    (makeRequest cb now tEnd cfg responses acquires endpoint params st).1 =
      (cb.call now tEnd false).1 ∧
    (makeRequest cb now tEnd cfg responses acquires endpoint params st).2.2.1 = 0 := by
  obtain ⟨e, he⟩ := herr
  unfold makeRequest CircuitBreaker.call
  rcases hadm : cb.admission now with ⟨cb1, b⟩
  rcases hint : makeRequestInternal cfg responses acquires endpoint params st 0
    with ⟨st1, k, r⟩
  rw [hint] at hk he
  simp only at hk he
  subst hk
  subst he
  cases b <;> simp

/-- Under an invalid endpoint the breaker state of a run of client requests
coincides with a run of plain failed calls through the breaker. -/
theorem apiRun_breaker_eq_failRun (cb : CircuitBreaker)
    (st : ExponentialBackoffRateLimiter) (cfg : ApiConfig)
    (responsesF : ℕ → ℕ → HttpResult) (acquiresF : ℕ → ℕ → AcquireIn)
    (times : ℕ → ℚ × ℚ) (endpoint : String)
    (params : List (String × ParamValue)) (m : String)
    (hep : InputValidator.validate_endpoint endpoint = .error m) :
    ∀ k, (apiRun cb st cfg responsesF acquiresF times endpoint params k).1 =
      cb.failRun (fun i => (times i).1) (fun i => (times i).2) k := by
  intro k
  induction k with
  | zero => rfl
  | succ k ih =>
    show (makeRequest (apiRun cb st cfg responsesF acquiresF times endpoint params k).1
        (times k).1 (times k).2 cfg (responsesF k) (acquiresF k) endpoint params
        (apiRun cb st cfg responsesF acquiresF times endpoint params k).2).1 = _
    obtain ⟨hk, herr⟩ := internal_endpoint_invalid_always_err cfg (responsesF k)
      (acquiresF k) endpoint params
      (apiRun cb st cfg responsesF acquiresF times endpoint params k).2 m hep
    rw [(makeRequest_breaker_on_error _ _ _ _ _ _ _ _ _ hk herr).1, ih]
    rfl

/-- The `fuel + 1` step of the pipeline when it reaches the HTTP call and
the server answers 429: a typed rate-limit error carrying the `Retry-After`
value (or its 60 s default), exactly one HTTP attempt, no retry. -/
theorem internalFuel_429 (cfg : ApiConfig) (responses : ℕ → HttpResult)
    (acquires : ℕ → AcquireIn) (endpoint : String)
    (params : List (String × ParamValue)) (fuel rc : ℕ)
    (st st1 : ExponentialBackoffRateLimiter) (se vu tok : String)
    (ra : Option String) (body : String)
    (hacq : st.acquire 1 (acquires rc).ws1 (acquires rc).clock1
      (acquires rc).ws2 (acquires rc).clock2 = (st1, .ok))
    (hep : InputValidator.validate_endpoint endpoint = .ok se)
    (hurl : InputValidator.validate_and_enforce_https (cfg.base_url ++ se) false = .ok vu)
    (hparams : params = [])
    (htok : cfg.token = some tok)
    (hresp : responses rc = .resp 429 ra body) :
    makeRequestInternalFuel cfg responses acquires endpoint params (fuel + 1) rc st =
      (st1, 1, .error (.rateLimit
        (some (ra.getD (toString DEFAULT_RETRY_AFTER_SECONDS))))) := by
  subst hparams
  simp only [makeRequestInternalFuel, hacq, hep, hurl, htok, hresp, List.isEmpty_nil,
    if_true, reduceIte]

/-- The `fuel + 1` step when the server 5xx/network error path is taken
with retry budget left: the *whole pipeline* is re-entered at
`retry_count + 1` and the attempt is counted. -/
theorem internalFuel_netError_retry (cfg : ApiConfig) (responses : ℕ → HttpResult)
    (acquires : ℕ → AcquireIn) (endpoint : String)
    (params : List (String × ParamValue)) (fuel rc : ℕ)
    (st st1 : ExponentialBackoffRateLimiter) (se vu tok : String)
    (hacq : st.acquire 1 (acquires rc).ws1 (acquires rc).clock1
      (acquires rc).ws2 (acquires rc).clock2 = (st1, .ok))
    (hep : InputValidator.validate_endpoint endpoint = .ok se)
    (hurl : InputValidator.validate_and_enforce_https (cfg.base_url ++ se) false = .ok vu)
    (hparams : params = [])
    (htok : cfg.token = some tok)
    (hresp : responses rc = .netError)
    (hrc : rc < cfg.max_retries) :
    makeRequestInternalFuel cfg responses acquires endpoint params (fuel + 1) rc st =
      ((makeRequestInternalFuel cfg responses acquires endpoint params fuel (rc + 1) st1).1,
       (makeRequestInternalFuel cfg responses acquires endpoint params fuel (rc + 1) st1).2.1 + 1,
       (makeRequestInternalFuel cfg responses acquires endpoint params fuel (rc + 1) st1).2.2) := by
  subst hparams
  simp only [makeRequestInternalFuel, hacq, hep, hurl, htok, hresp, List.isEmpty_nil,
    if_true, reduceIte, hrc]

/-- The `fuel + 1` step when a network error arrives with the retry budget
exhausted: a generic `SafetyCultureAPIError` after one more attempt. -/
theorem internalFuel_netError_exhausted (cfg : ApiConfig) (responses : ℕ → HttpResult)
    (acquires : ℕ → AcquireIn) (endpoint : String)
    (params : List (String × ParamValue)) (fuel rc : ℕ)
    (st st1 : ExponentialBackoffRateLimiter) (se vu tok : String)
    (hacq : st.acquire 1 (acquires rc).ws1 (acquires rc).clock1
      (acquires rc).ws2 (acquires rc).clock2 = (st1, .ok))
    (hep : InputValidator.validate_endpoint endpoint = .ok se)
    (hurl : InputValidator.validate_and_enforce_https (cfg.base_url ++ se) false = .ok vu)
    (hparams : params = [])
    (htok : cfg.token = some tok)
    (hresp : responses rc = .netError)
    (hrc : ¬ rc < cfg.max_retries) :
    makeRequestInternalFuel cfg responses acquires endpoint params (fuel + 1) rc st =
      (st1, 1, .error (.api none)) := by
  subst hparams
  simp only [makeRequestInternalFuel, hacq, hep, hurl, htok, hresp, List.isEmpty_nil,
    if_true, reduceIte, hrc]

/-- The `fuel + 1` step when the credential lookup fails: a
`SafetyCultureCredentialError` before any HTTP attempt. -/
theorem internalFuel_credential (cfg : ApiConfig) (responses : ℕ → HttpResult)
    (acquires : ℕ → AcquireIn) (endpoint : String)
    (params : List (String × ParamValue)) (fuel rc : ℕ)
    (st st1 : ExponentialBackoffRateLimiter) (se vu : String)
    (hacq : st.acquire 1 (acquires rc).ws1 (acquires rc).clock1
      (acquires rc).ws2 (acquires rc).clock2 = (st1, .ok))
    (hep : InputValidator.validate_endpoint endpoint = .ok se)
    (hurl : InputValidator.validate_and_enforce_https (cfg.base_url ++ se) false = .ok vu)
    (hparams : params = [])
    (htok : cfg.token = none) :
    makeRequestInternalFuel cfg responses acquires endpoint params (fuel + 1) rc st =
      (st1, 0, .error .credential) := by
  subst hparams
  simp only [makeRequestInternalFuel, hacq, hep, hurl, htok, List.isEmpty_nil,
    if_true, reduceIte]

/-- C8: evaluation of the validator at the inputs named by the claim.  The
claim holds for `'; '`, `'<'`, `'..'`, null bytes, over-long identifiers,
out-of-range `limit`/`offset` and non-whitelisted keys — but it is violated
at the failing input `"abc\n"`: Python's `$` matches just before a single
trailing newline, so `re.match(r'^[a-zA-Z0-9\-_]+$', 'abc\n')` succeeds and
`validate_asset_id` accepts an identifier containing a character outside
letters, digits, hyphen and underscore (returning it stripped), although
its own error text documents that only those characters are permitted. -/
theorem c8_validator_evaluation :
    InputValidator.validate_asset_id "abc\n" = .ok "abc"
    ∧ allowedIdChar '\n' = false
    ∧ exceptOk (InputValidator.validate_asset_id "abc; DROP TABLE users") = false
    ∧ exceptOk (InputValidator.validate_asset_id "a<b") = false
    ∧ exceptOk (InputValidator.validate_asset_id "a..b") = false
    ∧ exceptOk (InputValidator.validate_asset_id (String.mk ['a', Char.ofNat 0, 'b'])) = false
    ∧ exceptOk (InputValidator.validate_asset_id (String.mk (List.replicate 101 'a'))) = false
    ∧ exceptOk (InputValidator.validate_asset_id (String.mk (List.replicate 100 'a'))) = true
    ∧ exceptOk (InputValidator.validate_params [("limit", .int 0)]) = false
    ∧ exceptOk (InputValidator.validate_params [("limit", .int 1001)]) = false
    ∧ exceptOk (InputValidator.validate_params [("limit", .int 1000)]) = true
    ∧ exceptOk (InputValidator.validate_params [("limit", .int 1)]) = true
    ∧ exceptOk (InputValidator.validate_params [("offset", .int (-1))]) = false
    ∧ exceptOk (InputValidator.validate_params [("offset", .int 100001)]) = false
    ∧ exceptOk (InputValidator.validate_params [("offset", .int 0)]) = true
    ∧ exceptOk (InputValidator.validate_params [("malicious_param", .str "v")]) = false := by
  decide

/-- One token taken from the full concrete bucket at time 0. -/
theorem fullBucket_acquire_step1 :
    (TokenBucketRateLimiter.mk 10 20 30 20 0).acquire 1 0 [(0, 0)] =
      (TokenBucketRateLimiter.mk 10 20 30 19 0, .ok) := by
  norm_num [TokenBucketRateLimiter.acquire, TokenBucketRateLimiter.acquireLoop,
    TokenBucketRateLimiter.refill_tokens, TokenBucketRateLimiter.mk.injEq, min_def]

/-- A second token taken from the same bucket at time 0. -/
theorem fullBucket_acquire_step2 :
    (TokenBucketRateLimiter.mk 10 20 30 19 0).acquire 1 0 [(0, 0)] =
      (TokenBucketRateLimiter.mk 10 20 30 18 0, .ok) := by
  norm_num [TokenBucketRateLimiter.acquire, TokenBucketRateLimiter.acquireLoop,
    TokenBucketRateLimiter.refill_tokens, TokenBucketRateLimiter.mk.injEq, min_def]

/-- The full concrete limiter grants its first token, consuming it. -/
theorem fullLimiter_acquire_ok :
    fullLimiter.acquire 1 0 [(0, 0)] 0 [] =
      (⟨TokenBucketRateLimiter.mk 10 20 30 19 0, 1, 30, 2, 1, 0⟩, .ok) := by
  simp only [fullLimiter, ExponentialBackoffRateLimiter.acquire, fullBucket_acquire_step1]

/-- The limiter with 19 tokens grants another token, consuming it. -/
theorem limiter19_acquire_ok :
    (⟨TokenBucketRateLimiter.mk 10 20 30 19 0, 1, 30, 2, 1, 0⟩ :
      ExponentialBackoffRateLimiter).acquire 1 0 [(0, 0)] 0 [] =
      (⟨TokenBucketRateLimiter.mk 10 20 30 18 0, 1, 30, 2, 1, 0⟩, .ok) := by
  simp only [ExponentialBackoffRateLimiter.acquire, fullBucket_acquire_step2]

/-- C3, counterexample.  The claim says a request with an invalid endpoint
raises its `ValidationError` before any rate-limit token is acquired,
leaving the token count unchanged.  In the source the acquisition comes
first: here the request `GET bad` fails endpoint validation, yet the
limiter has gone from 20 tokens to 19. -/
theorem c3_order_counterexample :
    (makeRequestInternal ⟨"https://api.safetyculture.io", 3, some "t"⟩
        (constResponses .netError) instantAcquires "bad" [] fullLimiter 0).2.2 =
      .error (.validation "Endpoint must start with /: bad")
    ∧ (makeRequestInternal ⟨"https://api.safetyculture.io", 3, some "t"⟩
        (constResponses .netError) instantAcquires "bad" [] fullLimiter 0).1.bucket.tokens = 19
    ∧ fullLimiter.bucket.tokens = 20
    ∧ (19 : ℚ) ≠ 20 := by
  have hep : InputValidator.validate_endpoint "bad" =
      .error "Endpoint must start with /: bad" := by decide
  have h := internal_endpoint_error ⟨"https://api.safetyculture.io", 3, some "t"⟩
    (constResponses .netError) instantAcquires "bad" [] fullLimiter _ hep
    (by rw [show (instantAcquires 0) = ⟨0, [(0, 0)], 0, []⟩ from rfl,
            fullLimiter_acquire_ok])
  rw [show (instantAcquires 0) = ⟨0, [(0, 0)], 0, []⟩ from rfl] at h
  rw [h, fullLimiter_acquire_ok]
  exact ⟨rfl, rfl, rfl, by norm_num⟩

/-- C3, amended.  In `_make_request_internal` the rate-limit token is
acquired *before* endpoint validation: for every request whose endpoint is
invalid and whose acquisition succeeds, the pipeline returns the
`ValidationError` with no HTTP attempt, and the limiter is left in its
post-acquisition state (the token already consumed), not in its original
state. -/
theorem c3_acquire_precedes_validation (cfg : ApiConfig)
    (responses : ℕ → HttpResult) (acquires : ℕ → AcquireIn) (endpoint : String)
    (params : List (String × ParamValue)) (st : ExponentialBackoffRateLimiter)
    (m : String)
    (hep : InputValidator.validate_endpoint endpoint = .error m)
    (hok : (st.acquire 1 (acquires 0).ws1 (acquires 0).clock1
      (acquires 0).ws2 (acquires 0).clock2).2 = .ok) :
    makeRequestInternal cfg responses acquires endpoint params st 0 =
      ((st.acquire 1 (acquires 0).ws1 (acquires 0).clock1
        (acquires 0).ws2 (acquires 0).clock2).1, 0, .error (.validation m)) :=
  internal_endpoint_error cfg responses acquires endpoint params st m hep hok

/-- Witness for `c3_acquire_precedes_validation` at the concrete limiter:
the returned limiter state is the post-acquisition one. -/
theorem c3_acquire_precedes_validation_witness :
    makeRequestInternal ⟨"https://api.safetyculture.io", 3, some "t"⟩
        (constResponses .netError) instantAcquires "bad" [] fullLimiter 0 =
      ((fullLimiter.acquire 1 (instantAcquires 0).ws1 (instantAcquires 0).clock1
        (instantAcquires 0).ws2 (instantAcquires 0).clock2).1, 0,
       .error (.validation "Endpoint must start with /: bad")) :=
  c3_acquire_precedes_validation ⟨"https://api.safetyculture.io", 3, some "t"⟩
    (constResponses .netError) instantAcquires "bad" [] fullLimiter _
    (by decide)
    (by rw [show (instantAcquires 0) = ⟨0, [(0, 0)], 0, []⟩ from rfl,
            fullLimiter_acquire_ok])

/-- C7: a 429 response makes the pipeline raise the typed rate-limit error
carrying the `Retry-After` value — defaulting to 60 seconds when the header
is absent — after exactly one HTTP attempt and with no automatic retry, for
any remaining retry budget; by contrast, a network error on the same
pipeline *is* retried (two attempts are made with `max_retries = 1`). -/
theorem c7_429_no_retry :
    (∀ (cfg : ApiConfig) (responses : ℕ → HttpResult) (acquires : ℕ → AcquireIn)
       (endpoint : String) (st st1 : ExponentialBackoffRateLimiter)
       (se vu tok : String) (ra : Option String) (body : String),
      st.acquire 1 (acquires 0).ws1 (acquires 0).clock1
        (acquires 0).ws2 (acquires 0).clock2 = (st1, .ok) →
      InputValidator.validate_endpoint endpoint = .ok se →
      InputValidator.validate_and_enforce_https (cfg.base_url ++ se) false = .ok vu →
      cfg.token = some tok →
      responses 0 = .resp 429 ra body →
      makeRequestInternal cfg responses acquires endpoint [] st 0 =
        (st1, 1, .error (.rateLimit
          (some (ra.getD (toString DEFAULT_RETRY_AFTER_SECONDS))))))
    ∧ (∀ (cfg : ApiConfig) (responses : ℕ → HttpResult) (acquires : ℕ → AcquireIn)
       (endpoint : String) (st st1 : ExponentialBackoffRateLimiter)
       (se vu tok body : String),
      st.acquire 1 (acquires 0).ws1 (acquires 0).clock1
        (acquires 0).ws2 (acquires 0).clock2 = (st1, .ok) →
      InputValidator.validate_endpoint endpoint = .ok se →
      InputValidator.validate_and_enforce_https (cfg.base_url ++ se) false = .ok vu →
      cfg.token = some tok →
      responses 0 = .resp 429 none body →
      makeRequestInternal cfg responses acquires endpoint [] st 0 =
        (st1, 1, .error (.rateLimit (some "60"))))
    ∧ ((makeRequestInternal ⟨"https://api.safetyculture.io", 1, some "t"⟩
        (constResponses .netError) instantAcquires "/assets" [] fullLimiter 0).2.1 = 2) := by
  refine ⟨?_, ?_, ?_⟩
  · intro cfg responses acquires endpoint st st1 se vu tok ra body hacq hep hurl htok hresp
    unfold makeRequestInternal
    rw [Nat.sub_zero]
    exact internalFuel_429 cfg responses acquires endpoint [] cfg.max_retries 0
      st st1 se vu tok ra body hacq hep hurl rfl htok hresp
  · intro cfg responses acquires endpoint st st1 se vu tok body hacq hep hurl htok hresp
    unfold makeRequestInternal
    rw [Nat.sub_zero]
    rw [internalFuel_429 cfg responses acquires endpoint [] cfg.max_retries 0
      st st1 se vu tok none body hacq hep hurl rfl htok hresp]
    rfl
  · have hep : InputValidator.validate_endpoint "/assets" = .ok "/assets" := by decide
    have hurl : InputValidator.validate_and_enforce_https
        ((⟨"https://api.safetyculture.io", 1, some "t"⟩ : ApiConfig).base_url ++ "/assets")
        false = .ok "https://api.safetyculture.io/assets" := by decide
    unfold makeRequestInternal
    rw [show (⟨"https://api.safetyculture.io", 1, some "t"⟩ : ApiConfig).max_retries + 1 - 0
        = 1 + 1 from rfl]
    rw [internalFuel_netError_retry ⟨"https://api.safetyculture.io", 1, some "t"⟩
      (constResponses .netError) instantAcquires "/assets" [] 1 0 fullLimiter
      (⟨TokenBucketRateLimiter.mk 10 20 30 19 0, 1, 30, 2, 1, 0⟩ :
        ExponentialBackoffRateLimiter) "/assets"
      "https://api.safetyculture.io/assets" "t"
      (by exact fullLimiter_acquire_ok) hep hurl rfl rfl rfl (by decide)]
    rw [show makeRequestInternalFuel ⟨"https://api.safetyculture.io", 1, some "t"⟩
        (constResponses .netError) instantAcquires "/assets" [] 1 1
        (⟨TokenBucketRateLimiter.mk 10 20 30 19 0, 1, 30, 2, 1, 0⟩ :
          ExponentialBackoffRateLimiter) =
        makeRequestInternalFuel ⟨"https://api.safetyculture.io", 1, some "t"⟩
        (constResponses .netError) instantAcquires "/assets" [] (0 + 1) 1
        (⟨TokenBucketRateLimiter.mk 10 20 30 19 0, 1, 30, 2, 1, 0⟩ :
          ExponentialBackoffRateLimiter) from rfl]
    rw [internalFuel_netError_exhausted ⟨"https://api.safetyculture.io", 1, some "t"⟩
      (constResponses .netError) instantAcquires "/assets" [] 0 1
      (⟨TokenBucketRateLimiter.mk 10 20 30 19 0, 1, 30, 2, 1, 0⟩ :
        ExponentialBackoffRateLimiter)
      (⟨TokenBucketRateLimiter.mk 10 20 30 18 0, 1, 30, 2, 1, 0⟩ :
        ExponentialBackoffRateLimiter) "/assets"
      "https://api.safetyculture.io/assets" "t"
      (by exact limiter19_acquire_ok) hep hurl rfl rfl rfl (by decide)]

/-- Witness for `c7_429_no_retry`: a concrete 429 with `Retry-After: 120`
surfaces as the typed error carrying 120 with one attempt, and the absent
header defaults to 60. -/
theorem c7_429_no_retry_witness :
    makeRequestInternal ⟨"https://api.safetyculture.io", 3, some "t"⟩
        (constResponses (.resp 429 (some "120") "")) instantAcquires "/assets" []
        fullLimiter 0 =
      (⟨TokenBucketRateLimiter.mk 10 20 30 19 0, 1, 30, 2, 1, 0⟩, 1,
       .error (.rateLimit (some "120")))
    ∧ makeRequestInternal ⟨"https://api.safetyculture.io", 3, some "t"⟩
        (constResponses (.resp 429 none "")) instantAcquires "/assets" []
        fullLimiter 0 =
      (⟨TokenBucketRateLimiter.mk 10 20 30 19 0, 1, 30, 2, 1, 0⟩, 1,
       .error (.rateLimit (some "60"))) :=
  ⟨c7_429_no_retry.1 ⟨"https://api.safetyculture.io", 3, some "t"⟩
      (constResponses (.resp 429 (some "120") "")) instantAcquires "/assets"
      fullLimiter ⟨TokenBucketRateLimiter.mk 10 20 30 19 0, 1, 30, 2, 1, 0⟩
      "/assets" "https://api.safetyculture.io/assets" "t" (some "120") ""
      (by exact fullLimiter_acquire_ok) (by decide) (by decide) rfl rfl,
   c7_429_no_retry.2.1 ⟨"https://api.safetyculture.io", 3, some "t"⟩
      (constResponses (.resp 429 none "")) instantAcquires "/assets"
      fullLimiter ⟨TokenBucketRateLimiter.mk 10 20 30 19 0, 1, 30, 2, 1, 0⟩
      "/assets" "https://api.safetyculture.io/assets" "t" ""
      (by exact fullLimiter_acquire_ok) (by decide) (by decide) rfl rfl⟩

/-- C10 (implicit claim): the circuit breaker wraps the whole internal
pipeline, so (1) any request whose endpoint fails validation is recorded by
the breaker exactly like a failed call, with no HTTP attempt made; (2) a
missing credential likewise errors before any HTTP attempt; and (3) a run
of `failure_threshold` consecutive invalid requests opens the circuit even
though no network call was ever attempted. -/
theorem c10_breaker_wraps_whole_pipeline :
    (∀ (cfg : ApiConfig) (responses : ℕ → HttpResult) (acquires : ℕ → AcquireIn)
       (endpoint : String) (params : List (String × ParamValue))
       (st : ExponentialBackoffRateLimiter) (cb : CircuitBreaker) (now tEnd : ℚ)
       (m : String),
      InputValidator.validate_endpoint endpoint = .error m →
      (makeRequest cb now tEnd cfg responses acquires endpoint params st).1 =
        (cb.call now tEnd false).1 ∧
      (makeRequest cb now tEnd cfg responses acquires endpoint params st).2.2.1 = 0)
    ∧ (∀ (cfg : ApiConfig) (responses : ℕ → HttpResult) (acquires : ℕ → AcquireIn)
       (endpoint : String) (st st1 : ExponentialBackoffRateLimiter) (se vu : String),
      st.acquire 1 (acquires 0).ws1 (acquires 0).clock1
        (acquires 0).ws2 (acquires 0).clock2 = (st1, .ok) →
      InputValidator.validate_endpoint endpoint = .ok se →
      InputValidator.validate_and_enforce_https (cfg.base_url ++ se) false = .ok vu →
      cfg.token = none →
      makeRequestInternal cfg responses acquires endpoint [] st 0 =
        (st1, 0, .error .credential))
    ∧ (∀ (cfg : ApiConfig) (responsesF : ℕ → ℕ → HttpResult)
       (acquiresF : ℕ → ℕ → AcquireIn) (times : ℕ → ℚ × ℚ) (endpoint : String)
       (params : List (String × ParamValue)) (st : ExponentialBackoffRateLimiter)
       (cb : CircuitBreaker) (m : String),
      InputValidator.validate_endpoint endpoint = .error m →
      cb.state = .closed → cb.failure_count = 0 → 1 ≤ cb.failure_threshold →
      (apiRun cb st cfg responsesF acquiresF times endpoint params
        cb.failure_threshold).1.state = .open) := by
  refine ⟨?_, ?_, ?_⟩
  · intro cfg responses acquires endpoint params st cb now tEnd m hep
    obtain ⟨hk, herr⟩ := internal_endpoint_invalid_always_err cfg responses acquires
      endpoint params st m hep
    exact makeRequest_breaker_on_error cb now tEnd cfg responses acquires endpoint
      params st hk herr
  · intro cfg responses acquires endpoint st st1 se vu hacq hep hurl htok
    unfold makeRequestInternal
    rw [Nat.sub_zero]
    exact internalFuel_credential cfg responses acquires endpoint [] cfg.max_retries 0
      st st1 se vu hacq hep hurl rfl htok
  · intro cfg responsesF acquiresF times endpoint params st cb m hep hs hf hN
    rw [apiRun_breaker_eq_failRun cb st cfg responsesF acquiresF times endpoint
      params m hep cb.failure_threshold]
    exact failRun_opens cb _ _ hs hf hN

/-- Witness for `c10_breaker_wraps_whole_pipeline`: with threshold 3, three
requests to the invalid endpoint `"bad"` leave the breaker OPEN, a single
one is recorded exactly as a failed call, and a missing token yields the
credential error with no HTTP attempt. -/
theorem c10_breaker_wraps_whole_pipeline_witness :
    ((makeRequest (CircuitBreaker.init 3 2 60 600) 0 0
        ⟨"https://api.safetyculture.io", 3, some "t"⟩ (constResponses .netError)
        instantAcquires "bad" [] fullLimiter).1 =
      ((CircuitBreaker.init 3 2 60 600).call 0 0 false).1)
    ∧ ((makeRequest (CircuitBreaker.init 3 2 60 600) 0 0
        ⟨"https://api.safetyculture.io", 3, some "t"⟩ (constResponses .netError)
        instantAcquires "bad" [] fullLimiter).2.2.1 = 0)
    ∧ (makeRequestInternal ⟨"https://api.safetyculture.io", 3, none⟩
        (constResponses .netError) instantAcquires "/assets" [] fullLimiter 0 =
      (⟨TokenBucketRateLimiter.mk 10 20 30 19 0, 1, 30, 2, 1, 0⟩, 0,
       .error .credential))
    ∧ ((apiRun (CircuitBreaker.init 3 2 60 600) fullLimiter
        ⟨"https://api.safetyculture.io", 3, some "t"⟩ (constResponsesF .netError)
        instantAcquiresF zeroTimes "bad" [] 3).1.state = .open) :=
  ⟨(c10_breaker_wraps_whole_pipeline.1 ⟨"https://api.safetyculture.io", 3, some "t"⟩
      (constResponses .netError) instantAcquires "bad" [] fullLimiter
      (CircuitBreaker.init 3 2 60 600) 0 0 "Endpoint must start with /: bad" (by decide)).1,
   (c10_breaker_wraps_whole_pipeline.1 ⟨"https://api.safetyculture.io", 3, some "t"⟩
      (constResponses .netError) instantAcquires "bad" [] fullLimiter
      (CircuitBreaker.init 3 2 60 600) 0 0 "Endpoint must start with /: bad" (by decide)).2,
   c10_breaker_wraps_whole_pipeline.2.1 ⟨"https://api.safetyculture.io", 3, none⟩
      (constResponses .netError) instantAcquires "/assets" fullLimiter
      ⟨TokenBucketRateLimiter.mk 10 20 30 19 0, 1, 30, 2, 1, 0⟩
      "/assets" "https://api.safetyculture.io/assets"
      (by exact fullLimiter_acquire_ok) (by decide) (by decide) rfl,
   c10_breaker_wraps_whole_pipeline.2.2 ⟨"https://api.safetyculture.io", 3, some "t"⟩
      (constResponsesF .netError) instantAcquiresF zeroTimes "bad" [] fullLimiter
      (CircuitBreaker.init 3 2 60 600) "Endpoint must start with /: bad" (by decide)
      rfl rfl (by decide)⟩

end SCAgent
